import Mathlib

/-!
Verification of the index-advisory engine of the db_optimization repository.

The Python sources are shallowly embedded: each Python function that the
claims touch is translated into an executable Lean definition over
`List Char` / `String`, with regular-expression scans translated into
explicit character-level scanners that reproduce the behaviour of the
CPython `re` calls used by the source (leftmost, non-overlapping `findall`
scans; greedy character classes; ordered alternation).  External effects
(pymysql connections, cursor results) are supplied by explicit environment
records, one field per call site, and connection activity is recorded as an
event trace.  Machine text is ASCII in all call sites of interest, so the
character classes are modelled over ASCII.
-/

namespace DbOpt

/-! ### Character and string utilities -/

/-- ASCII letter test, mirroring `[A-Za-z]` in the source regexes. -/
def isAsciiLetter (c : Char) : Bool :=
  ('a' ≤ c && c ≤ 'z') || ('A' ≤ c && c ≤ 'Z')

/-- Python `\w` over ASCII: letters, digits and underscore. -/
def isWordChar (c : Char) : Bool :=
  isAsciiLetter c || c.isDigit || c = '_'

/-- First character of the `[a-zA-Z_]\w*` identifier class. -/
def isIdentStart (c : Char) : Bool :=
  isAsciiLetter c || c = '_'

/-- Python `\s` over ASCII whitespace. -/
def isSpaceChar (c : Char) : Bool :=
  c = ' ' || c = '\t' || c = '\n' || c = '\r' || c = '\x0b' || c = '\x0c'

/-- ASCII lower-casing of one character, as `str.lower` does on ASCII text. -/
def lowerChar (c : Char) : Char :=
  if 'A' ≤ c && c ≤ 'Z' then Char.ofNat (c.toNat + 32) else c

/-- ASCII upper-casing of one character, as `str.upper` does on ASCII text. -/
def upperChar (c : Char) : Char :=
  if 'a' ≤ c && c ≤ 'z' then Char.ofNat (c.toNat - 32) else c

def lowerL (cs : List Char) : List Char := cs.map lowerChar

def upperL (cs : List Char) : List Char := cs.map upperChar

def lowerS (s : String) : String := ⟨lowerL s.data⟩

def upperS (s : String) : String := ⟨upperL s.data⟩

/-- Case-insensitive prefix test: does `pat` (given lower-case) start `cs`? -/
def startsWithCI (pat : List Char) (cs : List Char) : Bool :=
  match pat, cs with
  | [], _ => true
  | _ :: _, [] => false
  | p :: ps, c :: rest => (lowerChar c = p) && startsWithCI ps rest

/-- Exact prefix test on character lists. -/
def startsWithL (pat : List Char) (cs : List Char) : Bool :=
  match pat, cs with
  | [], _ => true
  | _ :: _, [] => false
  | p :: ps, c :: rest => (c = p) && startsWithL ps rest

/-- Substring containment, `pat in s` of Python. -/
def containsL (cs pat : List Char) : Bool :=
  match cs with
  | [] => pat.isEmpty
  | _ :: rest => startsWithL pat cs || containsL rest pat

def containsS (s pat : String) : Bool := containsL s.data pat.data

/-- Non-overlapping substring count, Python `str.count` (for nonempty `pat`).
A successful match advances past the whole pattern; `rest.drop (pat.length - 1)`
equals `(c :: rest).drop pat.length` for nonempty `pat`.  The `fuel` argument
only provides structural termination; one character consumes one unit, so
`cs.length` units always suffice. -/
def countSubF : Nat → List Char → List Char → Nat
  | 0, _, _ => 0
  | _ + 1, [], _ => 0
  | fuel + 1, c :: rest, pat =>
    if startsWithL pat (c :: rest) && !pat.isEmpty then
      1 + countSubF fuel (rest.drop (pat.length - 1)) pat
    else
      countSubF fuel rest pat

def countSub (cs pat : List Char) : Nat := countSubF cs.length cs pat

def countSubS (s pat : String) : Nat := countSub s.data pat.data

/-- Python `str.strip`: drop ASCII whitespace at both ends. -/
def stripL (cs : List Char) : List Char :=
  ((cs.dropWhile isSpaceChar).reverse.dropWhile isSpaceChar).reverse

def stripS (s : String) : String := ⟨stripL s.data⟩

/-- Python `str.strip('\x60')`: drop back-tick quotes at both ends. -/
def stripBackticks (cs : List Char) : List Char :=
  ((cs.dropWhile (· = '`')).reverse.dropWhile (· = '`')).reverse

/-- Python `str.split()` with no argument: split on whitespace runs. -/
def splitWs (cs : List Char) : List (List Char) :=
  (List.splitOnP (fun c => isSpaceChar c) cs).filter (fun w => !w.isEmpty)

/-- Python `str.split(sep, 1)`-like first component for a one-char separator. -/
def splitFirst (cs : List Char) (sep : Char) : List Char :=
  cs.takeWhile (· ≠ sep)

/-- Whether position 0 of `cs` is at a `\b` boundary given the previous char. -/
def atWordBoundary (prev : Option Char) (cs : List Char) : Bool :=
  match prev, cs with
  | _, [] => false
  | none, c :: _ => isWordChar c
  | some p, c :: _ => !isWordChar p && isWordChar c

/-- Generic translation of `re.findall`: scan left to right, at each position
try the matcher (which also sees the previous character, for `\b` tests); on a
match of `n` consumed characters emit the capture and resume after the match,
otherwise advance one character.  `rest.drop (n - 1)` is `cs.drop n` for
`n ≥ 1`; the source patterns always consume at least one character. -/
def scanFindallF (m : Option Char → List Char → Option (α × Nat)) :
    Nat → Option Char → List Char → List α
  | 0, _, _ => []
  | _ + 1, _, [] => []
  | fuel + 1, prev, c :: rest =>
    match m prev (c :: rest) with
    | some (a, n) =>
      a :: scanFindallF m fuel ((c :: rest).get? (n - 1)) (rest.drop (n - 1))
    | none => scanFindallF m fuel (some c) rest

def scanFindall (m : Option Char → List Char → Option (α × Nat))
    (prev : Option Char) (cs : List Char) : List α :=
  scanFindallF m cs.length prev cs

/-- Generic translation of `re.search` used as a boolean test: is there any
position at which the matcher succeeds? -/
def scanExists (m : Option Char → List Char → Bool) :
    Option Char → List Char → Bool
  | _, [] => false
  | prev, c :: rest => m prev (c :: rest) || scanExists m (some c) rest

/-- Translation of `re.split(r\x22\bKW\b\x22, s, flags=re.IGNORECASE)` for a fixed
word `kw` (given in lower case): split at every word-bounded, case-insensitive
occurrence, left to right, non-overlapping. -/
def splitOnWordCIF (kw : List Char) : Nat → Option Char → List Char → List (List Char)
  | 0, _, _ => [[]]
  | _ + 1, _, [] => [[]]
  | fuel + 1, prev, c :: rest =>
    let hit := atWordBoundary prev (c :: rest) && startsWithCI kw (c :: rest) &&
      (match (c :: rest).drop kw.length with
       | [] => true
       | d :: _ => !isWordChar d)
    if hit then
      [] :: splitOnWordCIF kw fuel (((c :: rest).take kw.length).getLast?)
        (rest.drop (kw.length - 1))
    else
      match splitOnWordCIF kw fuel (some c) rest with
      | h :: t => (c :: h) :: t
      | [] => [[c]]

def splitOnWordCI (kw : List Char) (prev : Option Char) (cs : List Char) :
    List (List Char) :=
  splitOnWordCIF kw cs.length prev cs

/-- Case-insensitive word-bounded search for a fixed word (both boundaries). -/
def containsWordCI (kw : List Char) (cs : List Char) : Bool :=
  scanExists
    (fun prev s =>
      atWordBoundary prev s && startsWithCI kw s &&
      (match s.drop kw.length with
       | [] => true
       | d :: _ => !isWordChar d))
    none cs

/-- Ordered deduplication against a running `seen` set, as the source does with
a Python `set` plus an output list (`sql_analyzer.py` lines 134-146). -/
def dedupSeen : List String → List String → List String × List String
  | [], seen => ([], seen)
  | f :: fs, seen =>
    if f ∈ seen then dedupSeen fs seen
    else
      let (out, seen') := dedupSeen fs (f :: seen)
      (f :: out, seen')

/-- One stop alternative of the clause-extraction regexes: whitespace then a
keyword (given lower-case). -/
def stopKw1 (kw : List Char) (cs : List Char) : Bool :=
  match cs with
  | c :: rest => isSpaceChar c && startsWithCI kw (rest.dropWhile isSpaceChar)
  | [] => false

/-- Two-word stop alternative: whitespace, first keyword, whitespace, second
keyword. -/
def stopKw2 (kw1 kw2 : List Char) (cs : List Char) : Bool :=
  match cs with
  | c :: rest =>
    isSpaceChar c &&
      (let r := rest.dropWhile isSpaceChar
       startsWithCI kw1 r &&
         (match r.drop kw1.length with
          | d :: r2 => isSpaceChar d && startsWithCI kw2 (r2.dropWhile isSpaceChar)
          | [] => false))
  | [] => false

namespace SQLAnalyzer

/-! ### Embedding of `src/sql_analyzer.py`

`extract_where_fields` (lines 76-174) and its helper
`extract_fields_from_condition` (lines 176-215), plus
`sort_fields_by_priority` (lines 419-474). -/

/-- Matcher for pattern 1 of `extract_fields_from_condition`:
`\b([A-Za-z_]+)\s*\(\s*([a-zA-Z_]\w*)\s*\)` -- a function name followed by a
single bare identifier argument.  Returns the two captures and the length of
the whole match. -/
def matchFuncCall (prev : Option Char) (cs : List Char) :
    Option ((List Char × List Char) × Nat) :=
  if !atWordBoundary prev cs then none
  else
    let f := cs.takeWhile (fun c => isAsciiLetter c || c = '_')
    let r1 := cs.dropWhile (fun c => isAsciiLetter c || c = '_')
    if f.isEmpty then none
    else
      match r1.dropWhile isSpaceChar with
      | '(' :: r3 =>
        let r4 := r3.dropWhile isSpaceChar
        match r4 with
        | d :: _ =>
          if isIdentStart d then
            let w := r4.takeWhile isWordChar
            let r5 := r4.dropWhile isWordChar
            match r5.dropWhile isSpaceChar with
            | ')' :: r7 => some ((f, w), cs.length - r7.length)
            | _ => none
          else none
        | [] => none
      | _ => none

/-- Matcher for pattern 2 of `extract_fields_from_condition`:
`\b([a-zA-Z_]\w*)\s*[=<>!]+` -- an identifier followed by comparison
operator characters. -/
def matchFieldOp (prev : Option Char) (cs : List Char) :
    Option (List Char × Nat) :=
  if !atWordBoundary prev cs then none
  else
    match cs with
    | [] => none
    | c :: _ =>
      if !isIdentStart c then none
      else
        let w := cs.takeWhile isWordChar
        let r1 := cs.dropWhile isWordChar
        let r2 := r1.dropWhile isSpaceChar
        let ops := r2.takeWhile (fun c => c = '=' || c = '<' || c = '>' || c = '!')
        let r3 := r2.dropWhile (fun c => c = '=' || c = '<' || c = '>' || c = '!')
        if ops.isEmpty then none else some (w, cs.length - r3.length)

/-- The keyword filter applied to pattern-1 results (source line 195). -/
def funcKeywordList : List String := ["SELECT", "FROM", "WHERE", "AND", "OR"]

/-- The keyword filter applied to pattern-2 results (source line 205). -/
def fieldKeywordList : List String :=
  ["SELECT", "FROM", "WHERE", "AND", "OR", "NOT", "IN", "LIKE", "BETWEEN"]

/-- Translation of `extract_fields_from_condition`: function-call captures are
rendered as `FUNC(field)` with the function name upper-cased; then plain
comparison fields are appended unless they are keywords or a substring of an
already collected entry (the source checks `field in func_field` over the
whole accumulated list). -/
def extractFieldsFromCondition (condition : List Char) : List String :=
  let funcMatches := scanFindall matchFuncCall none condition
  let funcFields := funcMatches.foldl
    (fun acc fw =>
      let funcField : String := ⟨upperL fw.1 ++ '(' :: fw.2 ++ [')']⟩
      if upperS funcField ∈ funcKeywordList then acc else acc ++ [funcField])
    []
  let opMatches := scanFindall matchFieldOp none condition
  opMatches.foldl
    (fun acc w =>
      let field : String := ⟨w⟩
      if upperS field ∈ fieldKeywordList then acc
      else if acc.any (fun ff => containsL ff.data w) then acc
      else acc ++ [field])
    funcFields

/-- Stop alternation of the `extract_where_fields` regex (source line 95):
`(?:\s+ORDER\s+BY|\s+GROUP\s+BY|\s+LIMIT|$)`. -/
def whereStop (cs : List Char) : Bool :=
  stopKw2 "order".data "by".data cs || stopKw2 "group".data "by".data cs ||
    stopKw1 "limit".data cs

/-- The non-greedy group `(.+?)` before the stop alternation: the shortest
nonempty prefix of `rest` after which a stop alternative (or the end of the
string, for the `$` alternative) matches. -/
def whereGroup (rest : List Char) : Option (List Char) :=
  if rest.isEmpty then none
  else
    match (List.range (rest.length + 1)).find?
        (fun i => decide (1 ≤ i) &&
          (decide (i = rest.length) || whereStop (rest.drop i))) with
    | some i => some (rest.take i)
    | none => none

/-- Scan for the leftmost `\bWHERE\s+` admitting a group match, mirroring
`re.search(r\x22\bWHERE\s+(.+?)(?:...)\x22, sql, re.I | re.S)`.  When the text
after `WHERE` is all whitespace of length `m`, the engine backtracks the
greedy `\s+` to `m - 1` characters and the group captures one space (which
later strips to nothing); with `m = 1` the group cannot be nonempty and the
occurrence is skipped. -/
def findWhereClause : Option Char → List Char → Option (List Char)
  | _, [] => none
  | prev, c :: rest =>
    let here :=
      if atWordBoundary prev (c :: rest) && startsWithCI "where".data (c :: rest) then
        let tail := (c :: rest).drop 5
        let sp := tail.takeWhile isSpaceChar
        let body := tail.dropWhile isSpaceChar
        if sp.isEmpty then none
        else if body.isEmpty then
          if 2 ≤ sp.length then some [' '] else none
        else whereGroup body
      else none
    match here with
    | some g => some g
    | none => findWhereClause (some c) rest

/-- Translation of `extract_where_fields` (source lines 76-174).  The WHERE
clause is split on word-bounded `OR`; the first piece supplies the AND-branch
fields, the remaining pieces the OR-branch fields; both are deduplicated
against a common seen-set, and the result keeps at most five fields with the
AND branch first and a literal `f` promoted to the front of the OR branch. -/
def uniqueAndOrFields (sql : String) : List String × List String :=
  if sql.data.isEmpty then ([], [])
  else
    let sqlClean := stripL sql.data
    let sqlClean :=
      if sqlClean.getLast? = some ';' then stripL sqlClean.dropLast else sqlClean
    match findWhereClause none sqlClean with
    | none => ([], [])
    | some wc =>
      let whereClause := stripL wc
      let orParts := (splitOnWordCI "or".data none whereClause).map stripL
      match orParts with
      | [] => ([], [])
      | first :: others =>
        let andFields := extractFieldsFromCondition first
        let orFields := others.flatMap extractFieldsFromCondition
        let (uniqueAnd, seen) := dedupSeen andFields []
        let (uniqueOr, _) := dedupSeen orFields seen
        (uniqueAnd, uniqueOr)

/-- OR-branch reordering of source lines 156-170: a field literally named `f`
is moved to the front, other OR fields keep their order. -/
def prioritizeF (uniqueOr : List String) : List String :=
  if "f" ∈ uniqueOr then "f" :: uniqueOr.filter (· ≠ "f") else uniqueOr

def extract_where_fields (sql : String) : List String :=
  let p := uniqueAndOrFields sql
  if 5 ≤ p.1.length then p.1.take 5
  else p.1 ++ (prioritizeF p.2).take (5 - p.1.length)

/-! Field-priority weighting, `sort_fields_by_priority` (lines 419-474). -/

def endsWithL (suffix : List Char) (cs : List Char) : Bool :=
  startsWithL suffix.reverse cs.reverse

/-- Weight of one field (source lines 437-470).  Note that the final
`weight += len(field)` gives longer names a larger weight even though the
adjacent comment says short fields matter more. -/
def fieldWeight (sqlLower : String) (field : String) : Nat :=
  let fl := lowerS field
  let w1 : Nat :=
    if fl ∈ ["id", "pk", "primary_key"] then 100
    else if endsWithL "_id".data fl.data then 90 else 0
  let w2 : Nat :=
    if fl ∈ ["date", "time", "created", "updated", "timestamp"] then 80
    else if endsWithL "_date".data fl.data || endsWithL "_time".data fl.data then 70
    else 0
  let w3 : Nat :=
    if fl ∈ ["status", "state", "type", "category"] then 60
    else if endsWithL "_status".data fl.data || endsWithL "_type".data fl.data then 50
    else 0
  let w4 : Nat := if fl ∈ ["user", "name", "title", "code"] then 40 else 0
  w1 + w2 + w3 + w4 + field.data.length + countSubS sqlLower fl * 5

/-- Descending insertion of a key into a sorted key list. -/
def insDesc (k : Nat) : List Nat → List Nat
  | [] => [k]
  | j :: js => if j ≤ k then k :: j :: js else j :: insDesc k js

def dedupNatAux : List Nat → List Nat → List Nat
  | [], _ => []
  | k :: ks, seen =>
    if k ∈ seen then dedupNatAux ks seen else k :: dedupNatAux ks (k :: seen)

def dedupNat (l : List Nat) : List Nat := dedupNatAux l []

/-- Stable descending sort by a key, the semantics of CPython
`sorted(xs, key=key, reverse=True)`: elements are grouped by key in
descending key order, and elements with equal keys keep their input order. -/
def pySortedDesc (key : α → Nat) (xs : List α) : List α :=
  ((xs.map key |> dedupNat).foldr insDesc []).flatMap
    (fun k => xs.filter (fun x => key x = k))

def sort_fields_by_priority (fields : List String) (sqlLower : String) :
    List String :=
  if fields.isEmpty then [] else pySortedDesc (fieldWeight sqlLower) fields

end SQLAnalyzer


namespace DatabaseHelper

/-! ### Embedding of `src/database_helper.py`

The pymysql world is an explicit environment: one field per external call
site supplies the outcome the database would return.  Every successful
`pymysql.connect` and every successful `close` is recorded in an event
trace, so connection activity is observable.  A result dict is modelled as a
record; a key that a given code path does not put into the dict is `none`. -/

/-- Observable connection activity.  `connect h d` is a successful
`pymysql.connect(host=h, database=d)`; `close` is a successful close. -/
inductive DbEvent
  | connect (host : String) (db : Option String)
  | close
deriving Repr, DecidableEq

/-- Result dictionary shape used by the helper methods. -/
structure PyResult where
  status : String
  message : String
  data : Option (List (List String)) := none
  connection : Option Nat := none
deriving Repr, DecidableEq

/-- Mutable helper state: `_active_connection` (as a connection id) plus a
fresh-id counter for newly opened connections. -/
structure HelperState where
  active : Option Nat
  nextId : Nat
deriving Repr, DecidableEq

/-- Outcomes of the external calls made by the helper, one field per call
site of `database_helper.py`. -/
structure HelperEnv where
  businessHost : String
  /-- line 55: the connect to the `t` metadata database succeeds -/
  clusterConnOk : Bool
  /-- line 66: the `execute` of the master-row lookup does not raise (when it
  raises, control reaches the handler of lines 100-102 and the function
  returns without closing the connection it opened) -/
  clusterMasterQueryOk : Bool
  /-- line 72: `fetchone` of the master-row lookup -/
  clusterMaster : Option String
  /-- line 81: the `execute` of the standby lookup does not raise (same
  leaking handler of lines 100-102 on a raise) -/
  clusterStandbyQueryOk : Bool
  /-- line 87: `fetchall` of the standby lookup (first column of each row) -/
  clusterStandbys : List String
  /-- line 134: the status-check connection succeeds -/
  checkConnOk : Bool
  /-- line 145: number of non-sleeping sessions -/
  activeSessions : Nat
  /-- line 162: a write-capable privilege row was found -/
  hasWritePriv : Bool
  /-- lines 166 and 176: the connection that is kept as active succeeds -/
  mainConnOk : Bool
  /-- line 221: `close` of the active connection succeeds -/
  closeOk : Bool
  /-- line 273: `USE database` succeeds -/
  useOk : Bool
  /-- line 276: `fetchall` of the user query; `none` means the execute raised -/
  queryData : Option (List (List String))
deriving Repr, DecidableEq

/-- Translation of `get_standby_hostname` (lines 40-102): query the cluster
table over a transient connection.  The no-row paths close the connection
before returning (lines 76, 91, 96), but when one of the two `execute`
calls raises after the connect succeeded, the handler of lines 100-102
returns `None` without a `conn.close()`, leaving the opened connection
unmatched. -/
def getStandbyHostname (env : HelperEnv) (master : String) :
    Option String × List DbEvent :=
  if master = "" then (none, [])
  else if !env.clusterConnOk then (none, [])
  else if !env.clusterMasterQueryOk then
    (none, [.connect env.businessHost (some "t")])
  else
    match env.clusterMaster with
    | none => (none, [.connect env.businessHost (some "t"), .close])
    | some _ =>
      if !env.clusterStandbyQueryOk then
        (none, [.connect env.businessHost (some "t")])
      else
        match env.clusterStandbys with
        | [] => (none, [.connect env.businessHost (some "t"), .close])
        | standby :: _ =>
          (some standby, [.connect env.businessHost (some "t"), .close])

/-- Translation of `get_safe_connection` (lines 104-216).  Note the order of
operations in the source: the standby lookup (with its transient metadata
connection) runs before the `_active_connection` guard is checked.  In the
no-write-privilege branch the status-check connection is never closed. -/
def getSafeConnection (st : HelperState) (env : HelperEnv)
    (hostname : Option String) :
    PyResult × HelperState × List DbEvent :=
  let originalHost :=
    match hostname with
    | some h => if h ≠ "" && h ≠ "localhost" then h else env.businessHost
    | none => env.businessHost
  let standby := getStandbyHostname env originalHost
  let host := standby.1.getD originalHost
  if st.active.isSome then
    ({ status := "error", message := "已存在活跃数据库连接，不允许创建新连接" },
      st, standby.2)
  else if !env.checkConnOk then
    ({ status := "error", message := "数据库连接失败" }, st, standby.2)
  else
    let evCheck := standby.2 ++ [DbEvent.connect host none]
    if 10 < env.activeSessions then
      ({ status := "error", message := "数据库活跃会话数超过10，暂不执行操作" },
        st, evCheck ++ [DbEvent.close])
    else if env.hasWritePriv then
      if env.mainConnOk then
        ({ status := "success", message := "数据库连接创建成功",
           connection := some st.nextId },
          { active := some st.nextId, nextId := st.nextId + 1 },
          evCheck ++ [DbEvent.close, DbEvent.connect host none])
      else
        ({ status := "error", message := "数据库连接失败" }, st,
          evCheck ++ [DbEvent.close])
    else
      if env.mainConnOk then
        ({ status := "success", message := "数据库连接创建成功",
           connection := some st.nextId },
          { active := some st.nextId, nextId := st.nextId + 1 },
          evCheck ++ [DbEvent.connect host none])
      else
        ({ status := "error", message := "数据库连接失败" }, st,
          evCheck ++ [DbEvent.close])

/-- Translation of `close_safe_connection` (lines 218-225): when `close`
raises, `_active_connection` is left set (the assignment to `None` sits after
the `close()` call inside the `try`). -/
def closeSafeConnection (st : HelperState) (env : HelperEnv) :
    HelperState × List DbEvent :=
  match st.active with
  | none => (st, [])
  | some _ =>
    if env.closeOk then ({ st with active := none }, [DbEvent.close])
    else (st, [])

def dangerousKeywords : List String :=
  ["INSERT", "UPDATE", "DELETE", "DROP", "CREATE", "ALTER", "TRUNCATE"]

/-- The guard of `execute_safe_query` line 242: `keyword in query.upper()`
is a plain substring test, so identifiers merely containing a keyword also
trigger it. -/
def containsDangerous (q : String) : Bool :=
  dangerousKeywords.any (fun kw => containsS (upperS q) kw)

/-- The full-scan guard of lines 251-259 (`or` binds weaker than `and`). -/
def fullScanReject (q : String) : Bool :=
  let u := upperS q
  startsWithL "SELECT".data u.data && !containsS u "WHERE" &&
    (containsS u "JOIN" || (containsS u "FROM" && 1 < countSubS u "FROM"))

/-- Translation of `execute_safe_query` (lines 227-292). -/
def executeSafeQuery (st : HelperState) (env : HelperEnv) (q : String)
    (hostname : Option String) (database : Option String) :
    PyResult × HelperState × List DbEvent :=
  if containsDangerous q then
    ({ status := "error", message := "查询包含危险操作，仅允许SELECT查询",
       data := none }, st, [])
  else if fullScanReject q then
    ({ status := "error",
       message := "查询可能涉及全表扫描，请添加适当的WHERE条件",
       data := none }, st, [])
  else
    let (connResult, st1, ev1) := getSafeConnection st env hostname
    if connResult.status ≠ "success" then (connResult, st1, ev1)
    else
      let run : PyResult :=
        if database.isSome && !env.useOk then
          { status := "error", message := "查询执行失败", data := none }
        else
          match env.queryData with
          | some rows => { status := "success", message := "查询执行成功",
                           data := some rows }
          | none => { status := "error", message := "查询执行失败", data := none }
      let (st2, ev2) := closeSafeConnection st1 env
      (run, st2, ev1 ++ ev2)

def countOpens (evs : List DbEvent) : Nat :=
  evs.countP (fun e => match e with | .connect _ _ => true | _ => false)

def countCloses (evs : List DbEvent) : Nat :=
  evs.countP (fun e => match e with | .close => true | _ => false)

/-- A sample environment for concrete executions: cluster metadata is
reachable and a standby host exists. -/
def sampleEnv : HelperEnv :=
  { businessHost := "127.0.0.1", clusterConnOk := true,
    clusterMasterQueryOk := true, clusterMaster := some "cluster_a",
    clusterStandbyQueryOk := true, clusterStandbys := ["10.0.0.2"],
    checkConnOk := true, activeSessions := 0, hasWritePriv := false,
    mainConnOk := true, closeOk := true, useOk := true, queryData := some [] }


end DatabaseHelper

/-- Python exceptions that the embedded report code can raise. -/
inductive PyErr
  | unboundLocal (name : String)
deriving Repr, DecidableEq

/-- Exact fraction with a positive denominator: the stand-in for the Python
float values in the expected-effect text.  Mathlib\x27s `ℚ` operations are
`@[irreducible]`, so they cannot be evaluated by the kernel; these
operations keep the denominator positive, skip normalisation, and compare
by cross-multiplication, so each `Frac` denotes the same rational the exact
float arithmetic would produce. -/
structure Frac where
  num : Int
  den : Int := 1
deriving Repr, DecidableEq

def Frac.ofInt (n : Int) : Frac := ⟨n, 1⟩

/-- `a < b` for positive denominators. -/
def Frac.blt (a b : Frac) : Bool := a.num * b.den < b.num * a.den

def Frac.mul (a b : Frac) : Frac := ⟨a.num * b.num, a.den * b.den⟩

def Frac.sub (a b : Frac) : Frac := ⟨a.num * b.den - b.num * a.den, a.den * b.den⟩

/-- Division, keeping the denominator positive (never called on zero). -/
def Frac.div (a b : Frac) : Frac :=
  if b.num < 0 then ⟨-(a.num * b.den), a.den * -b.num⟩
  else ⟨a.num * b.den, a.den * b.num⟩

def Frac.floor (a : Frac) : Int := Int.fdiv a.num a.den

/-- The parts of the per-query dict that the advisory code reads.  `tsKey`
says whether the key `table_structure` is present; `tsIndexCols` is the set
of column names harvested from a truthy parsed structure dict that has an
`indexes` entry (`none` when the key is absent or the value is falsy or
unparseable); `tableField` is `query.get('table')`; `metaRowCount` is the
row count that `_extract_row_count_from_query` recovers from the metadata. -/
structure QueryInfo where
  /-- the key `table_structure` is present in the dict -/
  tsKey : Bool := false
  /-- the raw `table_structure` value is truthy (line 1601 tests truthiness
  of the possibly unparsed value) -/
  tsTruthy : Bool := false
  /-- the value is a truthy dict.  Modelling note: line 1527 tests the raw
  value with `isinstance(dict)` while line 1714 also accepts a string that
  parses to a dict; this single flag stands for both sites, so a
  string-valued `table_structure` that parses to a dict (raw test false,
  parse test true) is not representable.  Every theorem below that reaches
  line 1714 assumes the table resolves as existing, and on that path the
  two sites agree, so no statement depends on the difference. -/
  tsDict : Bool := false
  /-- column names harvested from the `indexes` entry of the parsed dict
  (`none` when the dict has no such entry) -/
  tsIndexCols : Option (List String) := none
  /-- `query.get('table') or query.get('original_table')` (line 1462) -/
  tableField : Option String := none
  /-- row count recoverable by `_extract_row_count_from_query` -/
  metaRowCount : Option Int := none
  /-- the key `slow_query_info` is present (line 2348) -/
  slowInfoKey : Bool := false
  /-- `slow_query_info['query_time_max']` when that key is present; rational
  stand-in for the Python float -/
  slowQueryTimeMax : Option Frac := none
  /-- `slow_query_info['query_time']` when present -/
  slowQueryTime : Option Frac := none
  /-- top-level `query['query_time']` when present -/
  queryTime : Option Frac := none
deriving DecidableEq

namespace ReportCore

/-! ### Embedding of `report_generator_core.check_indexes_exist`
(`src/report_generator_core.py` lines 653-792). -/

/-- Translation of `check_indexes_exist`.  `tableExists` is the outcome of
the `check_table_exists` probe (line 682); `showIndex` is the outcome of the
`SHOW INDEX` query (line 708): `none` for an error status, otherwise the
`Column_name` values of the returned rows. -/
def check_indexes_exist (tableExists : Bool)
    (showIndex : Option (List String)) (query : Option QueryInfo)
    (database tableName : String)
    (whereFields joinFields orderByFields : List String) : Bool :=
  if tableName = "" then false
  else
    let tsBranch := match query with | some q => q.tsKey | none => false
    if !tsBranch && database ≠ "" && !tableExists then false
    else
      let allFields := (whereFields ++ joinFields ++ orderByFields).map lowerS
      if allFields = [] then false
      else
        let dbCols :=
          if database ≠ "" then
            match showIndex with
            | some cols => cols.map lowerS
            | none => []
          else []
        let dbSuccess := dbCols ≠ []
        let structCols :=
          if !dbSuccess && tsBranch then
            match query with
            | some q =>
              if q.tsDict then (q.tsIndexCols.getD []).map lowerS else []
            | none => []
          else []
        let existing := dbCols ++ structCols
        if existing ≠ [] then
          if allFields.all (· ∈ existing) then
            if 1 < whereFields.length then false else true
          else false
        else false

end ReportCore

namespace Report

/-! ### Embedding of `src/database_optimization_report.py`

The method `_check_indexes_exist` (lines 379-520) and the advisory composer
`_analyze_sql_for_optimization` (lines 1314-2401).  External calls are
resolved through a `ReportEnv` record with one field per call site. -/

/-- Outcomes of the external calls made along one run of the advisory
composer, one field per call site of `database_optimization_report.py`. -/
structure ReportEnv where
  /-- line 1511: `_check_table_exists(database, table, host)` -/
  cte1511 : Bool := false
  /-- line 1513: `_find_correct_database_for_table` -/
  find1513 : Option String := none
  /-- line 1517: recheck against the found database -/
  cte1517 : Bool := false
  /-- line 1521: `_check_table_exists` on the else path -/
  cte1521 : Bool := false
  /-- line 1605: `_check_table_exists` for `can_get_index_info` -/
  cte1605 : Bool := false
  /-- line 408: existence check inside `_check_indexes_exist` -/
  cte408 : Bool := false
  /-- line 434: `SHOW INDEX` inside `_check_indexes_exist` -/
  showIndex434 : Option (List String) := none
  /-- line 1743: `SHOW INDEX` in the main body -/
  showIndex1743 : Option (List String) := none
  /-- line 1654 via `_get_table_row_count_with_fallback`: database part -/
  rowCount1654 : Option Int := none
  /-- line 1847 via `_get_table_row_count_with_fallback`: database part -/
  rowCount1847 : Option Int := none
  /-- line 2016 via `_get_table_row_count_with_fallback`: database part -/
  rowCount2016 : Option Int := none
  /-- lines 1756-1769: columns harvested from `compare_data`, when present -/
  hasCompareData : Bool := false
  compareDataCols : List String := []
deriving Repr, DecidableEq

/-- Translation of `_check_indexes_exist` (lines 379-520).  On the paths
that take neither the `table_structure` branch nor the `database and
table_name` branch of lines 399-410, the local `hostname_max` is never
assigned, and line 427 (`if not hostname_max:`) raises UnboundLocalError --
unless the function already returned at line 395, 410 or 419. -/
def checkIndexesExistR (env : ReportEnv) (query : Option QueryInfo)
    (database tableName : String)
    (whereFields joinFields orderByFields : List String) : Except PyErr Bool :=
  if tableName = "" then .ok false
  else
    let tsBranch := match query with | some q => q.tsKey | none => false
    if !tsBranch && database ≠ "" && !env.cte408 then .ok false
    else
      let allFields := (whereFields ++ joinFields ++ orderByFields).map lowerS
      if allFields = [] then .ok false
      else if tsBranch || database = "" then .error (.unboundLocal "hostname_max")
      else
        let dbCols :=
          match env.showIndex434 with
          | some cols => cols.map lowerS
          | none => []
        -- with tsBranch = false the structure fallback of line 453 never
        -- fires on a non-raising path, so the index set is the `SHOW INDEX`
        -- harvest alone
        let existing := dbCols
        if existing ≠ [] then
          if allFields.all (· ∈ existing) then
            if 1 < whereFields.length then .ok false else .ok true
          else .ok false
        else .ok false

/-- First-result scan, translation of a boolean-free `re.search` that needs
the captures of the leftmost match. -/
def scanFindOpt (m : Option Char → List Char → Option α) :
    Option Char → List Char → Option α
  | _, [] => none
  | prev, c :: rest =>
    match m prev (c :: rest) with
    | some a => some a
    | none => scanFindOpt m (some c) rest

/-- Operator alternation of the WHERE field pattern (line 1378), in source
order: `=|>|<|>=|<=|!=|<>|like|in|is|between`. -/
def opAlternatives : List String :=
  ["=", ">", "<", ">=", "<=", "!=", "<>", "like", "in", "is", "between"]

def tryOpsAt (cs : List Char) : Option Nat :=
  opAlternatives.findSome? (fun op =>
    if startsWithCI op.data cs then some op.data.length else none)

/-- Backtracking loop of `(\w+)\s*(?:=|...|between)`: the greedy `\w+` is
shortened until the operator alternation matches. -/
def fieldOpBacktrack (cs : List Char) : Nat → Option (List Char × Nat)
  | 0 => none
  | j + 1 =>
    let after := cs.drop (j + 1)
    let sp := after.takeWhile isSpaceChar
    let r := after.dropWhile isSpaceChar
    match tryOpsAt r with
    | some opLen => some (cs.take (j + 1), j + 1 + sp.length + opLen)
    | none => fieldOpBacktrack cs j

/-- Matcher for the WHERE field pattern of line 1378 (no word boundary, any
word characters, letter operators may match inside a longer word run). -/
def matchFieldOpR (_ : Option Char) (cs : List Char) : Option (List Char × Nat) :=
  match cs with
  | [] => none
  | c :: _ =>
    if !isWordChar c then none
    else fieldOpBacktrack cs (cs.takeWhile isWordChar).length

/-- Matcher for `([a-zA-Z_]\w*)\s*\.\s*([a-zA-Z_]\w*)` (line 1382). -/
def matchAliasPair (_ : Option Char) (cs : List Char) :
    Option ((List Char × List Char) × Nat) :=
  match cs with
  | [] => none
  | c :: _ =>
    if !isIdentStart c then none
    else
      let w1 := cs.takeWhile isWordChar
      match (cs.drop w1.length).dropWhile isSpaceChar with
      | '.' :: r2 =>
        let r3 := r2.dropWhile isSpaceChar
        match r3 with
        | d :: _ =>
          if isIdentStart d then
            let w2 := r3.takeWhile isWordChar
            some ((w1, w2), cs.length - (r3.drop w2.length).length)
          else none
        | [] => none
      | _ => none

/-- The fixed function-name list of lines 1391 and 1545-1551, in source
order. -/
def funcNames : List String :=
  ["lower", "upper", "substring", "concat", "length", "trim", "ltrim",
   "rtrim", "abs", "ceil", "floor", "round", "mod", "rand", "now",
   "curdate", "curtime", "date", "time", "year", "month", "day"]

/-- Matcher for the function-field pattern of line 1391: one of the fixed
names, then `\s*\(\s*\w+\s*\)`; the capture is the whole matched text. -/
def matchFuncCall22 (_ : Option Char) (cs : List Char) :
    Option (List Char × Nat) :=
  funcNames.findSome? (fun fn =>
    if startsWithCI fn.data cs then
      match (cs.drop fn.data.length).dropWhile isSpaceChar with
      | '(' :: r2 =>
        let r3 := r2.dropWhile isSpaceChar
        let w := r3.takeWhile isWordChar
        if w.isEmpty then none
        else
          match (r3.drop w.length).dropWhile isSpaceChar with
          | ')' :: r5 =>
            some (cs.take (cs.length - r5.length), cs.length - r5.length)
          | _ => none
      | _ => none
    else none)

/-- Translation of the per-field checks of lines 1570-1574, 1631-1636 and
1810-1815: `re.search(func + r\x22\s*\(\s*\x22 + field + r\x22\s*\)\x22,
sql, re.IGNORECASE)` over the fixed function list. -/
def checkFieldInFunction (sql field : String) : Bool :=
  let s := lowerL sql.data
  let f := lowerL field.data
  scanExists
    (fun _ cs =>
      funcNames.any (fun fn =>
        startsWithL fn.data cs &&
          (match (cs.drop fn.data.length).dropWhile isSpaceChar with
           | '(' :: r2 =>
             let r3 := r2.dropWhile isSpaceChar
             startsWithL f r3 &&
               (match (r3.drop f.length).dropWhile isSpaceChar with
                | ')' :: _ => true
                | _ => false)
           | _ => false)))
    none s

/-- Matcher for `([A-Za-z_]+)\s*\(\s*([a-zA-Z_]\w*)\s*\)` (lines 1561, 1802),
without a word boundary; used through `re.search` on a single field entry. -/
def matchInnerFunc (_ : Option Char) (cs : List Char) :
    Option (String × String) :=
  let f := cs.takeWhile (fun c => isAsciiLetter c || c = '_')
  if f.isEmpty then none
  else
    match (cs.drop f.length).dropWhile isSpaceChar with
    | '(' :: r2 =>
      let r3 := r2.dropWhile isSpaceChar
      match r3 with
      | d :: _ =>
        if isIdentStart d then
          let w := r3.takeWhile isWordChar
          match (r3.drop w.length).dropWhile isSpaceChar with
          | ')' :: _ => some (⟨f⟩, ⟨w⟩)
          | _ => none
        else none
      | [] => none
    | _ => none

def innerFuncMatch (entry : String) : Option (String × String) :=
  scanFindOpt matchInnerFunc none entry.data

/-- Stop alternation of the WHERE-clause pattern of line 1373:
`(?:\s+order\s+by|\s+group\s+by|\s+limit|\s+offset|\s+$|$)`. -/
def whereStopR (cs : List Char) : Bool :=
  stopKw2 "order".data "by".data cs || stopKw2 "group".data "by".data cs ||
    stopKw1 "limit".data cs || stopKw1 "offset".data cs ||
    (!cs.isEmpty && cs.all isSpaceChar)

/-- The non-greedy group `([^;]+?)` of line 1373: shortest nonempty prefix
containing no semicolon at whose end a stop alternative or the string end
matches; a semicolon inside every candidate group makes the occurrence
fail. -/
def whereGroupR (rest : List Char) : Option (List Char) :=
  if rest.isEmpty then none
  else
    match (List.range (rest.length + 1)).find?
        (fun i => decide (1 ≤ i) &&
          (decide (i = rest.length) || whereStopR (rest.drop i))) with
    | some i => if ';' ∈ rest.take i then none else some (rest.take i)
    | none => none

/-- Scan for the leftmost plain occurrence of `where` (no word boundary in
the line 1373 pattern) admitting a group match. -/
def findWhereClauseR : Option Char → List Char → Option (List Char)
  | _, [] => none
  | _, c :: rest =>
    let here :=
      if startsWithL "where".data (c :: rest) then
        let tail := (c :: rest).drop 5
        let sp := tail.takeWhile isSpaceChar
        let body := tail.dropWhile isSpaceChar
        if sp.isEmpty then none
        else if body.isEmpty then
          if 2 ≤ sp.length then some [' '] else none
        else whereGroupR body
      else none
    match here with
    | some g => some g
    | none => findWhereClauseR (some c) rest

/-- SQL keywords excluded by the fallback word extraction of lines 1400 and
1405. -/
def fallbackKeywords : List String :=
  ["and", "or", "not", "null", "true", "false", "like", "in", "is",
   "between", "exists", "where", "select", "from", "join", "on", "group",
   "order", "by", "limit", "offset"]

/-- Maximal word runs of a text (`\b\w+\b` findall). -/
def wordRuns (cs : List Char) : List (List Char) :=
  (List.splitOnP (fun c => !isWordChar c) cs).filter (fun w => !w.isEmpty)

/-- Fallback extraction of lines 1396-1401 and 1403-1406: alphabetic words
longer than two characters that are not SQL keywords. -/
def fallbackWords (cs : List Char) : List String :=
  (wordRuns cs).filterMap (fun w =>
    if w.all isAsciiLetter && (⟨lowerL w⟩ : String) ∉ fallbackKeywords &&
        2 < w.length then
      some ⟨w⟩
    else none)

/-- Matcher for a dotted operand `[a-zA-Z_]\w*\.[a-zA-Z_]\w*` (line 1415). -/
def matchDotted (cs : List Char) : Option (List Char × Nat) :=
  match cs with
  | [] => none
  | c :: _ =>
    if !isIdentStart c then none
    else
      let w1 := cs.takeWhile isWordChar
      match cs.drop w1.length with
      | '.' :: r2 =>
        match r2 with
        | d :: _ =>
          if isIdentStart d then
            let w2 := r2.takeWhile isWordChar
            some (w1 ++ '.' :: w2, w1.length + 1 + w2.length)
          else none
        | [] => none
      | _ => none

/-- Matcher for the JOIN condition pattern of line 1415:
`(dotted)\s*=\s*(dotted)`. -/
def matchJoinPair (_ : Option Char) (cs : List Char) :
    Option ((List Char × List Char) × Nat) :=
  match matchDotted cs with
  | none => none
  | some (op1, n1) =>
    let r1 := (cs.drop n1).dropWhile isSpaceChar
    match r1 with
    | '=' :: r2 =>
      let r3 := r2.dropWhile isSpaceChar
      match matchDotted r3 with
      | some (op2, n2) =>
        some ((op1, op2), cs.length - (r3.drop n2).length)
      | none => none
    | _ => none

/-- Group stop of the ORDER BY pattern of line 1439:
`(?:\s+limit|\s+offset|$)`. -/
def orderStop (cs : List Char) : Bool :=
  stopKw1 "limit".data cs || stopKw1 "offset".data cs

/-- Group match for `([\w,\s]+?)`: the candidate must stay inside the
word/comma/space character class. -/
def orderGroup (rest : List Char) : Option (List Char) :=
  let span := rest.takeWhile (fun c => isWordChar c || c = ',' || isSpaceChar c)
  match (List.range (span.length + 1)).find?
      (fun i => decide (1 ≤ i) &&
        (decide (i = rest.length) || orderStop (rest.drop i))) with
  | some i => some (rest.take i)
  | none => none

/-- Scan for `order\s+by\s+` (lower-case input) with a group match. -/
def findOrderClause : Option Char → List Char → Option (List Char)
  | _, [] => none
  | _, c :: rest =>
    let here :=
      if startsWithL "order".data (c :: rest) then
        let t1 := (c :: rest).drop 5
        let sp1 := t1.takeWhile isSpaceChar
        let t2 := t1.dropWhile isSpaceChar
        if sp1.isEmpty then none
        else if startsWithL "by".data t2 then
          let t3 := t2.drop 2
          let sp2 := t3.takeWhile isSpaceChar
          let body := t3.dropWhile isSpaceChar
          if sp2.isEmpty then none else orderGroup body
        else none
      else none
    match here with
    | some g => some g
    | none => findOrderClause (some c) rest

/-- Python `split(',')` followed by `strip` of each piece (line 1443). -/
def splitCommaStrip (cs : List Char) : List String :=
  (List.splitOnP (fun c => c = ',') cs).map (fun w => (⟨stripL w⟩ : String))

/-- Python `str.rstrip(';')`. -/
def rstripSemis (cs : List Char) : List Char :=
  (cs.reverse.dropWhile (· = ';')).reverse

/-- Scan for the leftmost `\bFROM\b\s+` (case-insensitive) whose remainder is
nonempty; returns everything after the whitespace run (`(.+)` greedy with
DOTALL, or a normalized single-line input). -/
def findFromClause : Option Char → List Char → Option (List Char)
  | _, [] => none
  | prev, c :: rest =>
    let here :=
      if atWordBoundary prev (c :: rest) && startsWithCI "from".data (c :: rest) then
        let tail := (c :: rest).drop 4
        let sp := tail.takeWhile isSpaceChar
        let body := tail.dropWhile isSpaceChar
        if sp.isEmpty || body.isEmpty then none else some body
      else none
    match here with
    | some g => some g
    | none => findFromClause (some c) rest

/-- Leftmost index of an exact substring, Python `str.find` (as `Option`). -/
def idxOfSub (cs pat : List Char) : Option Nat :=
  (List.range (cs.length + 1)).find? (fun i => startsWithL pat (cs.drop i))

/-- The FROM-clause stop keywords of lines 37 and 389, searched as plain
substrings (with their surrounding spaces) in the upper-cased clause. -/
def fromStopKeywords : List String :=
  [" WHERE ", " GROUP ", " ORDER ", " LIMIT ", " HAVING ", " UNION ",
   " EXCEPT ", " INTERSECT "]

/-- Truncate a FROM clause at the earliest stop keyword (lines 37-44,
389-396). -/
def truncateFromClause (cs : List Char) : List Char :=
  let u := upperL cs
  let stopIdx := fromStopKeywords.foldl
    (fun acc kw =>
      match idxOfSub u kw.data with
      | some i => min acc i
      | none => acc)
    cs.length
  cs.take stopIdx

/-- The alias-segment separators of line 398: a comma or one of the
word-bounded join keywords, case-insensitive. -/
def aliasSplitKws : List String :=
  ["join", "left", "right", "inner", "outer", "full", "cross"]

def aliasSegSplitHit (prev : Option Char) (cs : List Char) : Option Nat :=
  match cs with
  | ',' :: _ => some 1
  | _ =>
    aliasSplitKws.findSome? (fun kw =>
      if atWordBoundary prev cs && startsWithCI kw.data cs &&
          (match cs.drop kw.data.length with
           | [] => true
           | d :: _ => !isWordChar d) then
        some kw.data.length
      else none)

/-- Split of line 398: `re.split(r',|\bJOIN\b|...|\bCROSS\b', clause, re.I)`. -/
def splitAliasSegsF : Nat → Option Char → List Char → List (List Char)
  | 0, _, _ => [[]]
  | _ + 1, _, [] => [[]]
  | fuel + 1, prev, c :: rest =>
    match aliasSegSplitHit prev (c :: rest) with
    | some n =>
      [] :: splitAliasSegsF fuel (((c :: rest).take n).getLast?) (rest.drop (n - 1))
    | none =>
      match splitAliasSegsF fuel (some c) rest with
      | h :: t => (c :: h) :: t
      | [] => [[c]]

def splitAliasSegs (cs : List Char) : List (List Char) :=
  splitAliasSegsF cs.length none cs

/-- Ordered dictionary with Python overwrite semantics. -/
def dictInsert (m : List (String × String)) (k v : String) :
    List (String × String) :=
  if m.any (fun p => p.1 = k) then
    m.map (fun p => if p.1 = k then (k, v) else p)
  else m ++ [(k, v)]

def dictGetD (m : List (String × String)) (k d : String) : String :=
  match m.find? (fun p => p.1 = k) with
  | some p => p.2
  | none => d

/-- Translation of `SQLAnalyzer.extract_table_aliases`
(`src/sql_analyzer.py` lines 376-417). -/
def extractTableAliases (sql : String) : List (String × String) :=
  if sql.data.isEmpty then []
  else
    let sqlClean := rstripSemis (stripL sql.data)
    match findFromClause none sqlClean with
    | none => []
    | some fromClause =>
      let fromClause := truncateFromClause fromClause
      (splitAliasSegs fromClause).foldl
        (fun m seg =>
          let tokens := splitWs (stripL seg)
          match tokens with
          | [] => m
          | t0 :: trest =>
            let tableToken : String := ⟨stripBackticks t0⟩
            if tableToken = "" then m
            else
              let aliasTok : Option String :=
                match trest with
                | t1 :: _ =>
                  if upperS ⟨t1⟩ ∈ (["ON", "USING"] : List String) then none
                  else some ⟨stripBackticks t1⟩
                | [] => none
              dictInsert m (aliasTok.getD tableToken) tableToken)
        []

/-- Case-sensitive word-bounded split point for line 50 of
`extract_table_name` (`re.split` without IGNORECASE, so only the upper-case
keywords split). -/
def tnameSplitIdx (cs : List Char) : Option Nat :=
  (List.range cs.length).find? (fun i =>
    let s := cs.drop i
    let prev := if i = 0 then none else cs.get? (i - 1)
    (["JOIN", "LEFT", "RIGHT", "INNER", "OUTER"] : List String).any (fun kw =>
      atWordBoundary prev s && startsWithL kw.data s &&
        (match s.drop kw.data.length with
         | [] => true
         | d :: _ => !isWordChar d)))

/-- Python `re.sub(r'\s+', ' ', s)`: collapse whitespace runs. -/
def normalizeSpacesF : Nat → List Char → List Char
  | 0, _ => []
  | _ + 1, [] => []
  | fuel + 1, c :: rest =>
    if isSpaceChar c then
      ' ' :: normalizeSpacesF fuel (rest.dropWhile isSpaceChar)
    else c :: normalizeSpacesF fuel rest

def normalizeSpaces (cs : List Char) : List Char := normalizeSpacesF cs.length cs

/-- Matcher for the fallback patterns of lines 64-68, e.g.
`INSERT\s+INTO\s+` followed by an optional back-tick and a word run; the
search happens on the upper-cased SQL, so the capture is upper-case. -/
def matchKwTable (kws : List String) (_ : Option Char) (cs : List Char) :
    Option (List Char) :=
  let step : Option (List Char) → String → Option (List Char) :=
    fun acc kw =>
      match acc with
      | none => none
      | some s =>
        if startsWithCI kw.data s then
          let t := s.drop kw.data.length
          let sp := t.takeWhile isSpaceChar
          if sp.isEmpty then none else some (t.dropWhile isSpaceChar)
        else none
  match kws.foldl step (some cs) with
  | none => none
  | some r =>
    let r := match r with | '`' :: r2 => r2 | _ => r
    let w := r.takeWhile isWordChar
    if w.isEmpty then none else some w

/-- Translation of `SQLAnalyzer.extract_table_name`
(`src/sql_analyzer.py` lines 15-74). -/
def extract_table_name (sql : String) : Option String :=
  if sql.data.isEmpty then none
  else
    let sqlClean := rstripSemis (stripL sql.data)
    let sqlNorm := normalizeSpaces sqlClean
    let fromResult : Option String :=
      match findFromClause none sqlNorm with
      | none => none
      | some fromClause =>
        let fromClause := stripL (truncateFromClause fromClause)
        if fromClause.isEmpty then none
        else
          let firstSegment := stripL (splitFirst fromClause ',')
          let firstSegment :=
            match tnameSplitIdx firstSegment with
            | some i => stripL (firstSegment.take i)
            | none => firstSegment
          match firstSegment with
          | '(' :: _ => none
          | _ =>
            match splitWs firstSegment with
            | [] => none
            | t0 :: _ =>
              let tableToken : String := ⟨stripBackticks t0⟩
              if tableToken ≠ "" &&
                  upperS tableToken ∉ (["SELECT", "FROM"] : List String) then
                some tableToken
              else none
    match fromResult with
    | some t => some t
    | none =>
      let u := upperL sqlNorm
      match scanFindOpt (matchKwTable ["insert", "into"]) none u with
      | some w => some ⟨w⟩
      | none =>
        match scanFindOpt (matchKwTable ["update"]) none u with
        | some w => some ⟨w⟩
        | none =>
          match scanFindOpt (matchKwTable ["delete", "from"]) none u with
          | some w => some ⟨w⟩
          | none => none

/-! ### The advisory composer

`_analyze_sql_for_optimization` (lines 1314-2401).  In the source, the first
statements of the method body (lines 1353-1357) read the local `table_name`,
which is assigned only at line 1452; Python therefore raises
UnboundLocalError on every call that reaches line 1353.  The definitions
below embed the decision logic of the body with the table name resolved
first (the intended order, matching the code comments); the top-level
`analyze_sql_for_optimization` then models the actual raising behaviour. -/

def joinComma (xs : List String) : String := String.intercalate ", " xs

def joinUnderscore (xs : List String) : String := String.intercalate "_" xs

def joinCnSemi (xs : List String) : String := String.intercalate "；" xs

/-- Rendering of a recommended index statement. -/
def renderCreateIndex (name table : String) (cols : List String) : String :=
  let c := joinComma cols
  s!"CREATE INDEX {name} ON {table}({c});"

/-- One recorded `CREATE INDEX` recommendation: index name, target table and
the bare columns it lists. -/
structure CreateIx where
  ixName : String
  table : String
  cols : List String
deriving DecidableEq

/-- Per-table field usage, the `defaultdict` of line 1356. -/
structure Usage where
  whereCols : List String := []
  joinCols : List String := []
deriving DecidableEq

def tfuTouch (m : List (String × Usage)) (k : String) : List (String × Usage) :=
  if m.any (fun p => p.1 = k) then m else m ++ [(k, ⟨[], []⟩)]

def tfuAppendWhere (m : List (String × Usage)) (k col : String) :
    List (String × Usage) :=
  let m := tfuTouch m k
  m.map (fun p => if p.1 = k then (k, { p.2 with whereCols := p.2.whereCols ++ [col] }) else p)

def tfuAppendJoin (m : List (String × Usage)) (k col : String) :
    List (String × Usage) :=
  let m := tfuTouch m k
  m.map (fun p => if p.1 = k then (k, { p.2 with joinCols := p.2.joinCols ++ [col] }) else p)

/-- First-occurrence deduplication.  Python builds `list(set(...))` in a few
places; its iteration order is unspecified, and this model fixes it to
first-occurrence order.  No claim depends on the order, only on the
membership. -/
def dedupFirst (xs : List String) : List String :=
  xs.foldl (fun acc x => if x ∈ acc then acc else acc ++ [x]) []

def insAsc (k : String) : List String → List String
  | [] => [k]
  | j :: js => if k < j || k = j then k :: j :: js else j :: insAsc k js

/-- Python `sorted` over strings (code-point lexicographic). -/
def sortStrings (l : List String) : List String := l.foldr insAsc []

/-- Joined field-extraction results of lines 1353-1443. -/
structure Extraction where
  whereFields : List String
  joinFields : List String
  orderByFields : List String
  joinDetails : List (String × String × String)
  tfu : List (String × Usage)
deriving DecidableEq

/-- Lines 1364-1443: WHERE, JOIN and ORDER BY extraction, including the
per-table usage map updates. -/
def extractStage (sql : String) (tableName : String)
    (aliasMap : List (String × String)) : Extraction :=
  let sqlLower := lowerS sql
  let tfu0 := tfuTouch [] tableName
  let whereData :
      List String × List (List Char × List Char) :=
    if containsS sqlLower "where" then
      match findWhereClauseR none sqlLower.data with
      | some wc =>
        let f1 := (scanFindall matchFieldOpR none wc).map
          (fun w => (⟨w⟩ : String))
        let pairs := scanFindall matchAliasPair none wc
        let funcs := (scanFindall matchFuncCall22 none wc).map
          (fun l => (⟨l⟩ : String))
        let wf0 := f1 ++ funcs
        (if wf0 = [] then fallbackWords wc else wf0, pairs)
      | none => (fallbackWords sqlLower.data, [])
    else ([], [])
  let whereFields := whereData.1
  -- alias-qualified WHERE columns (lines 1382-1388)
  let tfu1 := whereData.2.foldl
    (fun m pr =>
      let aliasClean : String := ⟨stripBackticks pr.1⟩
      let colClean : String := ⟨stripBackticks pr.2⟩
      let actual := dictGetD aliasMap aliasClean aliasClean
      tfuAppendWhere m actual colClean)
    tfu0
  -- unqualified WHERE fields go to the primary table (lines 1408-1411)
  let tfu2 :=
    if containsS sqlLower "where" then
      whereFields.foldl
        (fun m f =>
          if !containsS f "." && !containsS f "(" then
            tfuAppendWhere m tableName f
          else m)
        tfu1
    else tfu1
  -- JOIN conditions (lines 1413-1435)
  let joinPairs := scanFindall matchJoinPair none sql.data
  let operands := joinPairs.foldl (fun acc pr => acc ++ [pr.1, pr.2]) []
  let joinFields := operands.map (fun op => (⟨(op.dropWhile (· ≠ '.')).drop 1⟩ : String))
  let joinDetails := operands.map (fun op =>
    let aliasPart : String := ⟨stripBackticks (op.takeWhile (· ≠ '.'))⟩
    let colPart : String := ⟨(op.dropWhile (· ≠ '.')).drop 1⟩
    let actual := dictGetD aliasMap aliasPart aliasPart
    (aliasPart, (if actual = "" then tableName else actual), colPart))
  -- ORDER BY (lines 1437-1443)
  let orderByFields :=
    if containsS sqlLower "order by" then
      match findOrderClause none sqlLower.data with
      | some g => splitCommaStrip g
      | none => []
    else []
  ⟨whereFields, joinFields, orderByFields, joinDetails, tfu2⟩

/-- Lines 1610-1639: does any WHERE field look function-wrapped, either by
its own parenthesised shape or by a `func(field)` occurrence in the SQL? -/
def hasFunctionFields (sql : String) (wf : List String) : Bool :=
  wf.any (fun f =>
    (containsS f "(" && containsS f ")") || checkFieldInFunction sql f)

/-- Lines 1795-1826: classification of WHERE fields into function-used
fields, plain fields without an index and plain fields with an index.  For a
parenthesised entry the inner column name and the raw entry are both pushed
onto `function_used_fields` (lines 1805 and 1820); a bare field detected via
the SQL text is pushed twice (lines 1814 and 1820). -/
def classifyFields (sql : String) (wf existing : List String) :
    List String × List String × List String :=
  wf.foldl
    (fun acc field =>
      let fu := acc.1
      let rwo := acc.2.1
      let rw := acc.2.2
      let parensHit : Option String :=
        if containsS field "(" && containsS field ")" then
          match innerFuncMatch field with
          | some p => some p.2
          | none => none
        else none
      match parensHit with
      | some inner => (fu ++ [inner, field], rwo, rw)
      | none =>
        if checkFieldInFunction sql field then (fu ++ [field, field], rwo, rw)
        else if lowerS field ∈ existing then (fu, rwo, rw ++ [field])
        else (fu, rwo ++ [field], rw))
    ([], [], [])

/-- Lines 1697-1768: the known indexed columns, from the query structure,
then the live `SHOW INDEX`, then the `compare_data` cache. -/
def existingIndexedFields (env : ReportEnv) (query : Option QueryInfo)
    (correctDatabase tableName : String) : List String :=
  let e1 :=
    match query with
    | some q =>
      if q.tsKey && q.tsDict then (q.tsIndexCols.getD []).map lowerS else []
    | none => []
  let e2 :=
    if correctDatabase ≠ "" && tableName ≠ "" then
      match env.showIndex1743 with
      | some cols => cols.map lowerS
      | none => []
    else []
  let e12 := e1 ++ e2
  if e12 = [] && env.hasCompareData then env.compareDataCols.map lowerS
  else e12

/-- Line 522-542: `_check_composite_index_exists`. -/
def checkCompositeIndexExists (existing compositeFields : List String) : Bool :=
  if compositeFields = [] then false
  else compositeFields.all (fun f => lowerS f ∈ existing)

/-- Line 260-265: `_get_table_row_count_with_fallback`: the database result
or, when that is `None`, the metadata extraction. -/
def rowCountWithFallback (dbRes : Option Int) (query : Option QueryInfo) :
    Option Int :=
  match dbRes with
  | some n => some n
  | none =>
    match query with
    | some q => q.metaRowCount
    | none => none

/-- Digit grouping of Python `format(n, ',')`. -/
def groupRevF : Nat → List Char → List Char
  | 0, ds => ds
  | fuel + 1, ds =>
    if ds.length ≤ 3 then ds
    else ds.take 3 ++ ',' :: groupRevF fuel (ds.drop 3)

def formatCommaNat (n : Nat) : String :=
  let ds := (toString n).data
  ⟨(groupRevF ds.length ds.reverse).reverse⟩

def formatCommaInt (n : Int) : String :=
  if n < 0 then "-" ++ formatCommaNat n.natAbs else formatCommaNat n.natAbs

/-- Python `f\x22{x:.0f}\x22`: round half to even, then print the
integer. -/
def fmt0 (q : Frac) : String :=
  let n : Int := q.floor
  let frac := q.sub (Frac.ofInt n)
  let z : Int :=
    if frac.blt ⟨1, 2⟩ then n
    else if Frac.blt ⟨1, 2⟩ frac then n + 1
    else if n % 2 = 0 then n else n + 1
  if z < 0 then "-" ++ toString z.natAbs else toString z.natAbs

/-- Lines 2296-2339: the expected-improvement computation.  The base is 75
(not 60) when function-wrapped fields are present; the lower bound
`max(50, base - 20)` has no upper clamp; there is no execution-count term. -/
def computeImprovement (whereFields joinFields orderByFields funcUsed
    sqlOpt tableOpt configOpt archOpt : List String) : Int × Int :=
  let b0 : Int := if funcUsed ≠ [] then 75 else 60
  let b1 := b0 +
    (if 3 ≤ whereFields.length then 25
     else if whereFields.length = 1 then -10 else 0)
  let b2 := b1 + (if joinFields ≠ [] then 15 else 0)
  let b3 := b2 + (if orderByFields ≠ [] then 10 else 0)
  let b4 := b3 +
    (if sqlOpt ≠ [] then (if funcUsed ≠ [] then 35 else 20) else 0)
  let b5 := b4 + (if tableOpt ≠ [] then 25 else 0)
  let b6 := b5 + (if configOpt ≠ [] then 30 else 0)
  let b7 := b6 + (if archOpt ≠ [] then 35 else 0)
  (max 50 (b7 - 20), min 95 (b7 + 25))

/-- Lines 2343-2377: expected-effect text.  The Python float arithmetic is
modelled exactly over `Frac`; the claims never depend on these numerals.
`avg_time <= 0` is `¬ (0 < avg_time)`; `max`/`min` are spelled out as the
comparisons Python performs. -/
def effectText (minImp maxImp : Int) (query : Option QueryInfo) : String :=
  let avgMs : Frac :=
    match query with
    | some q =>
      if q.slowInfoKey then
        match q.slowQueryTimeMax with
        | some v => v
        | none =>
          match q.slowQueryTime with
          | some v => v
          | none => Frac.ofInt 0
      else
        match q.queryTime with
        | some v => v
        | none => Frac.ofInt 0
    | none => Frac.ofInt 0
  let avgSec : Frac := avgMs.div (Frac.ofInt 1000)
  let avgSec := if !Frac.blt (Frac.ofInt 0) avgSec then ⟨2, 100⟩ else avgSec
  let avgImp : Frac := ⟨minImp + maxImp, 2⟩
  let improved := avgSec.mul ((Frac.ofInt 1).sub (avgImp.div (Frac.ofInt 100)))
  let improved := if improved.blt ⟨1, 1000⟩ then ⟨1, 1000⟩ else improved
  let multiplier :=
    let r := avgSec.div improved
    let r := if Frac.blt (Frac.ofInt 500) r then Frac.ofInt 500 else r
    if r.blt ⟨3, 2⟩ then ⟨3, 2⟩ else r
  let sFrom := fmt0 (avgSec.mul (Frac.ofInt 1000))
  let sTo := fmt0 (improved.mul (Frac.ofInt 1000))
  let sMul := fmt0 multiplier
  s!"预计平均查询时间从{sFrom}ms降低到{sTo}ms，性能提升约{sMul}倍"

/-- Line 1536. -/
def tableNotFoundText : String := "1. 智能诊断: 库表未找到"

/-- Lines 1658-1664, joined with a newline at line 1677. -/
def noRowInfoText (f tableName : String) : String :=
  s!"🎯 智能诊断: 字段 {f} 已有索引，但无法获取 {tableName} 表的行数信息（可能因权限不足、表元数据不可用或跨库查询限制）" ++
  "\n\n💡 基础优化建议:" ++
  "\n1. 使用EXPLAIN分析查询执行计划，确认索引实际被使用" ++
  "\n2. 检查数据库用户权限，确保有查询information_schema和统计信息的权限" ++
  "\n3. 监控慢查询日志，关注该查询的实际执行性能" ++
  "\n4. 检查是否存在索引失效场景（如函数使用、类型转换、前导模糊查询等）"

/-- Line 1668. -/
def archivalText (f tableName : String) (n : Int) : String :=
  let td := upperS tableName
  let rc := formatCommaInt n
  s!"1. 智能诊断: 字段 {f} 已有索引，{td}表行数为{rc}，超过400万，建议进行历史数据清理"

/-- Lines 1670 and 2290. -/
def optimalText (f : String) : String :=
  s!"1. 智能诊断: 字段 {f} 已有索引，查询已处于最优状态"

/-- Lines 1672-1675, joined with a newline. -/
def multiIdxText : String :=
  "🎯 智能诊断: WHERE条件中的字段已有索引" ++ "\n\n" ++
  "💡 建议: 请确认索引是否被正确使用，可使用EXPLAIN验证"

/-- Lines 1680-1684, joined with a newline: the indeterminate diagnosis when
the sufficiency check said yes but no index metadata is retrievable. -/
def uncertainTextA : String :=
  "🎯 智能诊断: 无法获取表索引信息，请确认数据库连接和表结构" ++ "\n" ++
  "💡 建议: 请检查数据库连接或手动确认字段是否已建立索引" ++ "\n" ++
  "🚀 如果字段确实已有索引，请忽略此提示"

/-- Lines 1686-1691, joined with a newline: the indeterminate diagnosis when
no index metadata is retrievable at all. -/
def uncertainTextB : String :=
  "🎯 智能诊断: 无法获取表索引信息，请确认数据库连接和表结构" ++ "\n" ++
  "💡 建议: 请检查数据库连接或手动确认id字段是否已建立索引" ++ "\n" ++
  "🚀 如果id字段确实已有索引，请忽略此提示"

/-- The f/c reordering loop of lines 1897-1916 (`c_added` is never set, so
the final guard only tests membership, the f flag and the length). -/
def jugglePrioritize (cf1 : List String) : List String :=
  let step := cf1.foldl
    (fun (acc : List String × Bool) x =>
      if x = "f" then (acc.1 ++ ["f"], true)
      else if x = "c" && !acc.2 then acc
      else (acc.1 ++ [x], acc.2))
    ([], false)
  let pri := if "c" ∈ cf1 && step.2 && step.1.length < 5 then step.1 ++ ["c"]
    else step.1
  pri.take 5

/-- One contribution to the recommendation lists: solutions, executable
action strings, and the recorded `CREATE INDEX` statements. -/
def Contribution := List String × List String × List CreateIx

def noContribution : Contribution := ([], [], [])

def catContrib (a b : Contribution) : Contribution :=
  (a.1 ++ b.1, a.2.1 ++ b.2.1, a.2.2 ++ b.2.2)

/-- Lines 1874-1941: recommendations when function-wrapped fields exist --
only non-function fields are considered; `composite_fields` is assigned only
when more than one non-function field exists, so the `f`-promotion branch
reads an unassigned local when the single non-function field is `f`. -/
def funcFieldBranch (tableName : String) (existing wf funcUsed : List String) :
    Except PyErr Contribution :=
  let nonFunc := wf.filter (· ∉ funcUsed)
  let compositeFields : Option (List String) :=
    if 1 < nonFunc.length then some (nonFunc.take 5) else none
  if "f" ∈ nonFunc then
    match compositeFields with
    | none => .error (.unboundLocal "composite_fields")
    | some cf =>
      let cf1 :=
        if "f" ∉ cf then
          if "c" ∈ cf then cf.map (fun x => if x = "c" then "f" else x)
          else cf.take 4 ++ ["f"]
        else cf
      let cf2 := jugglePrioritize cf1
      if !checkCompositeIndexExists existing cf2 then
        let name := "idx_" ++ joinUnderscore cf2 ++ "_composite"
        let fs := joinComma cf2
        .ok ([s!"🔥【智能复合索引】为非函数字段创建复合索引：{fs}（按查询优先级排序）"],
          ["-- 🔥【智能复合索引】多条件查询的核心优化（忽略函数字段）",
           renderCreateIndex name tableName cf2],
          [⟨name, tableName, cf2⟩])
      else
        let fs := joinComma cf2
        .ok ([s!"非函数字段 {fs} 已有索引覆盖，建议确认索引是否正常使用"], [], [])
  else if nonFunc.length = 1 then
    match nonFunc with
    | f :: _ =>
      if lowerS f ∉ existing then
        let name := "idx_" ++ f
        .ok ([s!"为非函数字段 {f} 创建单列索引优化查询性能"],
          ["-- ✅ 为非函数字段创建单列索引", renderCreateIndex name tableName [f]],
          [⟨name, tableName, [f]⟩])
      else .ok ([s!"非函数字段 {f} 已有索引，建议确认索引是否正常使用"], [], [])
    | [] => .ok noContribution
  else .ok noContribution

/-- Lines 2002-2057: the final `else` of the recommendation chain (reachable
only with an empty WHERE field list, in which case it contributes nothing;
embedded in full regardless). -/
def singleFieldElseBranch (env : ReportEnv) (query : Option QueryInfo)
    (sqlLower tableName : String) (wf existing : List String) : Contribution :=
  match wf with
  | [] => noContribution
  | f :: _ =>
    if lowerS f ∉ existing then
      let name := "idx_" ++ f
      ([s!"为字段 {f} 创建单列索引优化查询性能"],
        ["-- ✅ 创建单列索引（基础优化）", renderCreateIndex name tableName [f]],
        [⟨name, tableName, [f]⟩])
    else
      match rowCountWithFallback env.rowCount2016 query with
      | none =>
        ([s!"字段 {f} 已有索引，建议定期清理历史数据以保持查询性能"],
          ["-- 📊 数据维护建议", "-- 建议：1. 定期清理过期的历史数据",
           "-- 建议：2. 考虑实施数据归档策略",
           "-- 建议：3. 定期分析和优化表结构"], [])
      | some n =>
        if 4000000 < n then
          let rc := formatCommaInt n
          ([s!"⚠️ 字段 {f} 已有索引，但表行数达 {rc}，建议进行历史数据清理"],
            [s!"-- ⚠️ 大表优化建议（行数: {rc}）",
             "-- 建议：1. 考虑按时间分区归档历史数据",
             "-- 建议：2. 定期清理超过保留期的数据",
             "-- 建议：3. 考虑使用分区表优化大表性能"], [])
        else
          let rc := formatCommaInt n
          let sols0 := [s!"✅ 字段 {f} 已有索引，当前表行数{rc}在正常范围内"]
          let sols1 := if containsS sqlLower "select *" then
              ["🔍 建议：避免SELECT *，只选择需要的字段以减少数据传输量"]
            else []
          let sols2 := if 1 < wf.length then
              (let fs := joinComma (wf.take 3)
               let cnt := toString wf.length
               [s!"🔍 建议：多条件查询({cnt}个条件)，考虑复合索引优化顺序：{fs}"])
            else []
          let sols3 := ["🔍 建议：定期使用EXPLAIN分析查询执行计划，确认索引实际被使用",
            "🔍 建议：监控慢查询日志，关注该查询的实际执行时间"]
          let sols4 := if 100000 < n then
              [s!"🔍 建议：表数据量较大({rc}行)，关注索引选择性，确保字段值分布均匀"]
            else []
          let sols5 := ["🔍 建议：定期使用ANALYZE TABLE更新统计信息，确保优化器选择正确索引",
            "🔍 建议：检查是否存在索引失效场景（如函数使用、类型转换、前导模糊查询等）"]
          (sols0 ++ sols1 ++ sols2 ++ sols3 ++ sols4 ++ sols5, [], [])

/-- Lines 1866-2057: the recommendation chain. -/
def recommendationChain (env : ReportEnv) (query : Option QueryInfo)
    (sqlLower tableName : String)
    (wf existing funcUsed regWithout regWith : List String) :
    Except PyErr Contribution :=
  if funcUsed ≠ [] then
    funcFieldBranch tableName existing wf funcUsed
  else if 1 < regWith.length then
    let sorted := SQLAnalyzer.sort_fields_by_priority regWith sqlLower
    let comp := sorted.take 5
    let fs := joinComma comp
    if !checkCompositeIndexExists existing comp then
      let name := "idx_" ++ joinUnderscore comp ++ "_composite"
      .ok ([s!"🔥【智能复合索引】创建复合索引覆盖字段：{fs}（按查询优先级排序）"],
        ["-- 🔥【智能复合索引】多条件查询的核心优化",
         renderCreateIndex name tableName comp],
        [⟨name, tableName, comp⟩])
    else
      .ok ([s!"复合索引字段 {fs} 已有索引覆盖，建议确认索引是否正常使用"], [], [])
  else if regWith.length = 1 then
    if regWithout ≠ [] then
      let allF := regWith ++ regWithout
      let sorted := SQLAnalyzer.sort_fields_by_priority allF sqlLower
      let comp := sorted.take 5
      let fs := joinComma comp
      if !checkCompositeIndexExists existing comp then
        let name := "idx_" ++ joinUnderscore comp ++ "_composite"
        .ok ([s!"🔥【智能复合索引】建议创建复合索引覆盖字段：{fs}（按查询优先级排序）"],
          ["-- 🔥【智能复合索引】多条件查询的核心优化",
           renderCreateIndex name tableName comp],
          [⟨name, tableName, comp⟩])
      else
        .ok ([s!"复合索引字段 {fs} 已有索引覆盖，建议确认索引是否正常使用"], [], [])
    else .ok noContribution
  else if regWithout ≠ [] then
    if 1 < regWithout.length then
      let sorted := SQLAnalyzer.sort_fields_by_priority regWithout sqlLower
      let comp := sorted.take 5
      let fs := joinComma comp
      let name := "idx_" ++ joinUnderscore comp ++ "_composite"
      .ok ([s!"🔥【智能复合索引】为无索引字段创建复合索引：{fs}（按查询优先级排序）"],
        ["-- 🔥【智能复合索引】多条件查询的核心优化",
         renderCreateIndex name tableName comp],
        [⟨name, tableName, comp⟩])
    else
      match regWithout with
      | f :: _ =>
        let name := "idx_" ++ f
        .ok ([s!"为字段 {f} 创建单列索引优化查询性能"],
          ["-- ✅ 创建单列索引（基础优化）", renderCreateIndex name tableName [f]],
          [⟨name, tableName, [f]⟩])
      | [] => .ok noContribution
  else
    .ok (singleFieldElseBranch env query sqlLower tableName wf existing)

/-- Lines 2062-2073: per-table JOIN usage updates (skipped when function
fields exist). -/
def joinUpdates (tfu : List (String × Usage))
    (details : List (String × String × String)) (funcUsed : List String)
    (tableName : String) : List (String × Usage) :=
  if details ≠ [] && funcUsed = [] then
    (details.foldl
      (fun (acc : List (String × Usage) × List String) d =>
        let col := d.2.2
        let target := if d.2.1 = "" then tableName else d.2.1
        if col = "" || target = "" then acc
        else
          let key := lowerS target ++ "." ++ lowerS col
          if key ∈ acc.2 then acc
          else (tfuAppendJoin acc.1 target col, acc.2 ++ [key]))
      (tfu, [])).1
  else tfu

/-- Lines 2076-2104: composite or single JOIN-support indexes for non-primary
tables. -/
def joinTableRecs (tfu : List (String × Usage)) (primaryLower : String)
    (funcUsed : List String) : Contribution :=
  if tfu ≠ [] && funcUsed = [] then
    tfu.foldl
      (fun acc p =>
        let k := p.1
        let usage := p.2
        if k = "" then acc
        else if lowerS k = primaryLower then acc
        else
          let combined := (usage.whereCols ++ usage.joinCols).foldl
            (fun l c => if c ≠ "" && c ∉ l then l ++ [c] else l) []
          if combined = [] then acc
          else
            let kR := k.map (fun c => if c = '.' then '_' else c)
            if 2 ≤ combined.length then
              let subset := combined.take 5
              let name := "idx_" ++ kR ++ "_" ++ joinUnderscore subset ++ "_join"
              let fs := joinComma subset
              catContrib acc
                ([s!"🔥 为表 {k} 创建复合索引覆盖JOIN字段：{fs}"],
                 [s!"-- 🔥【跨表JOIN复合索引】表 {k}",
                  renderCreateIndex name k subset],
                 [⟨name, k, subset⟩])
            else
              match combined with
              | f :: _ =>
                let name := "idx_" ++ kR ++ "_" ++ f ++ "_join"
                catContrib acc
                  ([s!"为表 {k} 的 JOIN 字段 {f} 创建单列索引优化连接性能"],
                   [s!"-- ✅ 为表 {k} 的 JOIN字段 {f} 创建单列索引",
                    renderCreateIndex name k [f]],
                   [⟨name, k, [f]⟩])
              | [] => acc)
      noContribution
  else noContribution

/-- Lines 2106-2132: sort-supporting index recommendations. -/
def orderSection (tableName : String) (wf obf existing funcUsed : List String) :
    Contribution :=
  if obf ≠ [] && obf.length ≤ 3 && funcUsed = [] then
    let orderFields := obf.filter (· ∉ wf)
    if orderFields ≠ [] then
      let first2 := orderFields.take 2
      let need := first2.filter (fun f => lowerS f ∉ existing)
      let haveIdx := first2.filter (fun f => lowerS f ∈ existing)
      let partNeed : Contribution :=
        if need ≠ [] then
          let name := "idx_" ++ joinUnderscore need ++ "_order"
          let fs := joinComma need
          ([s!"为排序字段 {fs} 创建排序索引"],
           ["-- 🔄 创建排序优化索引（消除文件排序）",
            renderCreateIndex name tableName need],
           [⟨name, tableName, need⟩])
        else noContribution
      let partHave : Contribution :=
        if haveIdx ≠ [] then
          let fs := joinComma haveIdx
          ([s!"✅ 排序字段 {fs} 已有索引",
            "🔍 建议：确认排序方向与索引顺序一致（ASC/DESC）",
            "🔍 建议：对于多字段排序，确保排序顺序与复合索引字段顺序一致",
            "🔍 建议：监控排序操作的实际性能，大结果集排序可能需要优化"], [], [])
        else noContribution
      catContrib partNeed partHave
    else noContribution
  else noContribution

/-- Lines 2134-2161: covering-index recommendation (the Python `set` order
is modelled as first-occurrence order). -/
def coveringSection (tableName : String) (wf jf obf existing funcUsed : List String) :
    Contribution :=
  if wf ≠ [] && jf ≠ [] && funcUsed = [] then
    let covering := dedupFirst (wf ++ jf ++ obf.take 2)
    if covering.length ≤ 5 then
      let c5 := covering.take 5
      let need := c5.filter (fun f => lowerS f ∉ existing)
      let haveIdx := c5.filter (fun f => lowerS f ∈ existing)
      let partNeed : Contribution :=
        if need ≠ [] then
          let name := "idx_" ++ joinUnderscore need ++ "_covering"
          let fs := joinComma (need.take 5)
          ([s!"🔥【终极优化】创建覆盖索引 {fs}（避免回表查询）"],
           ["-- 🔥【覆盖索引】终极优化，避免回表查询",
            renderCreateIndex name tableName (need.take 5)],
           [⟨name, tableName, need.take 5⟩])
        else noContribution
      let partHave : Contribution :=
        if haveIdx ≠ [] then
          let fs := joinComma haveIdx
          ([s!"✅ 覆盖索引字段 {fs} 已有索引",
            "🔍 建议：确认覆盖索引包含所有查询字段，真正实现\x27索引覆盖\x27",
            "🔍 建议：监控查询是否真正使用覆盖索引（EXPLAIN中Extra列显示\x27Using index\x27）",
            "🔍 建议：定期检查索引大小，避免过大的覆盖索引影响写入性能"], [], [])
        else noContribution
      catContrib partNeed partHave
    else noContribution
  else noContribution

def boundaryAfter (n : Nat) (s : List Char) : Bool :=
  match s.drop n with
  | [] => true
  | d :: _ => !isWordChar d

/-- Line 2192: `re.search(r'\bexists\b|\bin\s*\(|any\b|\ball\b', sql_lower)`
(note that `any` has no leading boundary). -/
def subqueryCheck (cs : List Char) : Bool :=
  scanExists
    (fun prev s =>
      (atWordBoundary prev s && startsWithL "exists".data s && boundaryAfter 6 s) ||
      (atWordBoundary prev s && startsWithL "in".data s &&
        (((s.drop 2).dropWhile isSpaceChar).head? = some '(')) ||
      (startsWithL "any".data s && boundaryAfter 3 s) ||
      (atWordBoundary prev s && startsWithL "all".data s && boundaryAfter 3 s))
    none cs

def wordOrAt (cs : List Char) (i : Nat) : Bool :=
  let s := cs.drop i
  let prev := if i = 0 then none else cs.get? (i - 1)
  atWordBoundary prev s && startsWithL "or".data s && boundaryAfter 2 s

/-- Line 2196: `re.search(r'\bor\b.*\bor\b', sql_lower)` -- two word-bounded
`or` with no newline between them (`.` does not match newlines). -/
def orOrCheck (cs : List Char) : Bool :=
  (List.range cs.length).any (fun i =>
    wordOrAt cs i &&
      (List.range (cs.length + 1)).any (fun j =>
        i + 2 ≤ j && wordOrAt cs j &&
          ((cs.drop (i + 2)).take (j - (i + 2))).all (· ≠ '\n')))

/-- Lines 2167-2197: SQL-structure suggestions.  With function fields the
first entry is the rewrite advice for the first recorded function field. -/
def sqlStructureSuggestions (sqlLower : String) (funcUsed existing : List String) :
    List String :=
  match funcUsed with
  | field :: restFu =>
    let first :=
      if lowerS field ∈ existing then
        s!"【关键问题】字段 {field} 已有索引，但查询中使用了函数导致索引失效" ++
        "\nMySQL 5.7不支持函数索引，建议重写查询：" ++
        s!"\n• 使用前缀匹配：{field} LIKE \x27value%\x27（可利用索引）"
      else
        s!"🔥【关键问题】MySQL 5.7不支持函数索引，字段 {field} 在函数中使用导致无法创建有效索引" ++
        "\n建议重写查询避免函数使用：" ++
        s!"\n• 使用前缀匹配：{field} LIKE \x27value%\x27（可利用索引）"
    let more :=
      if restFu ≠ [] then
        let fs := joinComma funcUsed
        [s!"检测到多个函数字段：{fs}" ++ "\n所有函数字段都需要重写查询以避免函数使用"]
      else []
    first :: more
  | [] =>
    (if containsS sqlLower "select *" then ["避免SELECT *，只选择需要的字段"] else []) ++
    (if subqueryCheck sqlLower.data then ["考虑将相关子查询转换为JOIN操作"] else []) ++
    (if orOrCheck sqlLower.data then ["多个OR条件可能导致索引失效，考虑UNION ALL"] else [])

/-- Lines 1771-1863: the diagnosis line.  `list(set(...))` order is modelled
as first-occurrence order; no claim depends on it. -/
def coreIssuesLine (env : ReportEnv) (query : Option QueryInfo)
    (ext : Extraction) (funcUsed regWithout regWith : List String) : String :=
  let wf := ext.whereFields
  let ci0 :=
    if wf = [] && ext.joinFields = [] then
      ["查询缺少有效的过滤条件，存在全表扫描风险"]
    else []
  let ciFunc :=
    if wf ≠ [] && funcUsed ≠ [] then
      let fs := joinComma (dedupFirst funcUsed)
      [s!"WHERE条件中的字段 {fs} 在函数中使用，MySQL 5.7不支持函数索引，建议调整SQL结构"]
    else []
  let ciIdx :=
    if wf ≠ [] then
      if regWithout.length = 1 then ["建议创建单列索引"]
      else if 1 < regWithout.length then ["建议创建复合索引"]
      else if 1 < regWith.length then
        let fs := joinComma regWith
        [s!"其他列 {fs} 已有单独索引，建议创建复合索引"]
      else if regWith.length = 1 then
        match regWith with
        | f :: _ =>
          (match rowCountWithFallback env.rowCount1847 query with
           | some n =>
             if 4000000 < n then
               let rc := formatCommaInt n
               [s!"字段 {f} 已有索引，但表行数达 {rc}，建议历史数据清理"]
             else []
           | none => [])
        | [] => []
      else []
    else []
  let ciJoin :=
    if ext.joinDetails ≠ [] then
      let descr := ext.tfu.filterMap (fun p =>
        if p.2.joinCols ≠ [] then
          some (p.1 ++ "." ++ joinComma (sortStrings (dedupFirst p.2.joinCols)))
        else none)
      if descr ≠ [] then
        let ds := joinCnSemi descr
        [s!"JOIN条件涉及字段需要索引支持：{ds}"]
      else []
    else []
  let ciOrder :=
    if ext.orderByFields ≠ [] && wf = [] then
      ["ORDER BY排序操作可能导致性能问题"]
    else []
  let ci := ci0 ++ ciFunc ++ ciIdx ++ ciJoin ++ ciOrder
  let ci := if ci = [] then ["SQL语句可能存在性能优化空间"] else ci
  let cs := joinCnSemi ci
  s!"1. 智能诊断：{cs}"

/-- Lines 1508-1521: find the database that really contains the table. -/
def resolveDatabase (env : ReportEnv) (database tableName : String) :
    String × Bool :=
  if database ≠ "" && tableName ≠ "" && !env.cte1511 then
    match env.find1513 with
    | some found => if found ≠ "" then (found, env.cte1517) else (database, false)
    | none => (database, false)
  else (database, env.cte1521)

/-- Lines 1452-1468: table-name resolution (`table` parameter, else
extraction from the SQL with a masking fallback, else the placeholder). -/
def resolveTableName (sql table : String) (query : Option QueryInfo) : String :=
  let tn0 : Option String :=
    if table ≠ "" then some table
    else
      match extract_table_name sql with
      | some t =>
        if containsS t "*" then
          match query with
          | some q =>
            match q.tableField with
            | some ot => if ot ≠ "" then some ot else some t
            | none => some t
          | none => some t
        else some t
      | none => none
  match tn0 with
  | some t => if t = "" then "your_table_name" else t
  | none => "your_table_name"

/-- The advisory output: the final report text and the recorded
`CREATE INDEX` statements it embeds. -/
structure AdvisoryResult where
  text : String
  createIxs : List CreateIx
deriving DecidableEq

/-- Python `\x22\n\n\x22.join(parts)` (line 2401). -/
def joinNN : List String → String
  | [] => ""
  | [p] => p
  | p :: q :: rest => p ++ "\n\n" ++ joinNN (q :: rest)

/-- Lines 1596-1606: `can_get_index_info`. -/
def canGetIndexInfo (env : ReportEnv) (query : Option QueryInfo)
    (correctDatabase tableName : String) : Bool :=
  (match query with
   | some q => q.tsKey && q.tsTruthy
   | none => false) ||
  (correctDatabase ≠ "" && tableName ≠ "" && env.cte1605)

/-- The decision core of `_analyze_sql_for_optimization` (lines 1452-2401),
with the table name resolved before the extraction that uses it (the order
the code comments intend; the source's actual early read of `table_name` is
modelled in `analyze_sql_for_optimization` below). -/
def analyzeCore (env : ReportEnv) (sql : String) (database table : String)
    (query : Option QueryInfo) : Except PyErr AdvisoryResult := do
  let sqlLower := lowerS sql
  let aliasMap := extractTableAliases sql
  let tableName := resolveTableName sql table query
  let primaryLower := lowerS tableName
  let ext := extractStage sql tableName aliasMap
  let wf := ext.whereFields
  let jf := ext.joinFields
  let obf := ext.orderByFields
  -- lines 1508-1538: table existence and the early table-not-found return
  let rd := resolveDatabase env database tableName
  let correctDatabase := rd.1
  let tableExists := rd.2
  let hasTS :=
    match query with
    | some q => q.tsKey && q.tsDict
    | none => false
  if !tableExists && !hasTS then
    return ⟨tableNotFoundText, []⟩
  -- lines 1590-1691: sufficiency, retrievability and the early verdicts
  let hasFunc := hasFunctionFields sql wf
  let allIdx ← checkIndexesExistR env query correctDatabase tableName wf jf obf
  let canGet := canGetIndexInfo env query correctDatabase tableName
  if !hasFunc && allIdx && canGet then
    if wf.length = 1 then
      match wf with
      | f :: _ =>
        match rowCountWithFallback env.rowCount1654 query with
        | none => return ⟨noRowInfoText f tableName, []⟩
        | some n =>
          if 4000000 < n then return ⟨archivalText f tableName n, []⟩
          else return ⟨optimalText f, []⟩
      | [] => return ⟨multiIdxText, []⟩
    else
      return ⟨multiIdxText, []⟩
  if !hasFunc && allIdx && !canGet then
    return ⟨uncertainTextA, []⟩
  if !hasFunc && !allIdx && !canGet then
    return ⟨uncertainTextB, []⟩
  -- lines 1694-2057: diagnosis and recommendations
  let existing := existingIndexedFields env query correctDatabase tableName
  let cls :=
    if wf ≠ [] then classifyFields sql wf existing else ([], [], [])
  let funcUsed := cls.1
  let regWithout := cls.2.1
  let regWith := cls.2.2
  let part1 := coreIssuesLine env query ext funcUsed regWithout regWith
  let contrib1 ← recommendationChain env query sqlLower tableName wf existing
    funcUsed regWithout regWith
  let tfu2 := joinUpdates ext.tfu ext.joinDetails funcUsed tableName
  let contrib2 := joinTableRecs tfu2 primaryLower funcUsed
  let contrib3 := orderSection tableName wf obf existing funcUsed
  let contrib4 := coveringSection tableName wf jf obf existing funcUsed
  let contribA := catContrib (catContrib (catContrib contrib1 contrib2) contrib3) contrib4
  let solutions := contribA.1
  let actions := contribA.2.1
  let ledgerA := contribA.2.2
  -- lines 2163-2229: auxiliary suggestion pools and the generic fallback
  let sqlOpt := sqlStructureSuggestions sqlLower funcUsed existing
  let tableOpt :=
    if solutions = [] && actions = [] then ["定期分析和优化表结构"] else []
  let configOpt :=
    if solutions = [] && actions = [] && sqlOpt = [] then
      ["调整innodb_buffer_pool_size为内存70-80%",
       "优化query_cache和join_buffer_size参数"]
    else []
  let archOpt :=
    if solutions = [] && actions = [] && sqlOpt = [] && configOpt = [] then
      ["考虑读写分离减轻主库压力", "对热点数据实施Redis缓存策略"]
    else []
  let genericFallback :=
    solutions = [] && jf = [] && obf = [] && existing = []
  let actions :=
    if genericFallback then
      actions ++ ["-- 🔥【AI智能推荐】基础索引模板（请根据实际业务调整）",
        "-- 主键索引", s!"ALTER TABLE {tableName} ADD PRIMARY KEY (id);"]
    else actions
  -- the matching solutions.append of line 2225 is not read afterwards
  -- lines 2232-2291: assembly of part 2
  let allIndexedMulti :=
    existing ≠ [] && wf ≠ [] && wf.all (fun f => lowerS f ∈ existing)
  if actions = [] && sqlOpt = [] && tableOpt = [] && allIndexedMulti &&
      wf.length = 1 then
    match wf with
    | f :: _ => return ⟨optimalText f, []⟩
    | [] => pure ()
  let part2ledger : List CreateIx :=
    if actions = [] && sqlOpt = [] && tableOpt = [] && allIndexedMulti &&
        1 < wf.length then
      [⟨"idx_" ++ joinUnderscore (wf.take 5) ++ "_composite", tableName, wf.take 5⟩]
    else []
  let part2 : List String :=
    if actions ≠ [] || sqlOpt ≠ [] || tableOpt ≠ [] then
      ["2. 智能优化建议："] ++
      (match sqlOpt, actions with
       | s0 :: _, _ :: _ =>
         [s0, "**复合索引优化（非函数字段）：**", "```sql"] ++ actions ++ ["```"]
       | s0 :: _, [] => [s0]
       | [], _ :: _ =>
         ["**索引优化（最优建议）：**", "```sql"] ++ actions ++ ["```"]
       | [], [] =>
         if tableOpt ≠ [] then ["• 建议添加包含索引的过滤条件"] else [])
    else if allIndexedMulti && 1 < wf.length then
      let comp := wf.take 5
      let fs := joinComma comp
      let name := "idx_" ++ joinUnderscore comp ++ "_composite"
      ["2. 智能优化建议：", "**复合索引优化（最优建议）：**", "```sql",
       "-- 🔥【智能复合索引】多条件查询的核心优化",
       s!"CREATE INDEX {name} ON {tableName}({fs});", "```"]
    else []
  -- lines 2293-2399: expected effect
  let improvementApplies :=
    (wf ≠ [] || jf ≠ [] || sqlOpt ≠ [] || tableOpt ≠ []) ||
    (allIndexedMulti && 1 < wf.length)
  let part3 : List String :=
    if improvementApplies then
      let imp := computeImprovement wf jf obf funcUsed sqlOpt tableOpt
        configOpt archOpt
      let eff := effectText imp.1 imp.2 query
      [s!"3. 预期效果: {eff}"]
    else
      ["3. 预期效果: 平均查询时间从2.50秒降低到0.50秒，性能提升约5.0倍",
       "4. EXPLAIN预期执行计划:",
       "    • type: ref/range (索引范围扫描)",
       "    • key: 使用创建的复合索引",
       "    • rows: 从全表扫描减少到几十行",
       "    • Extra: Using index (覆盖索引), Using where"]
  return ⟨joinNN ([part1] ++ part2 ++ part3), ledgerA ++ part2ledger⟩

/-- Translation of `_analyze_sql_for_optimization` itself (lines 1314-1355).
`enable_intelligent_optimizer` is initialized `False` in `__init__`
(line 87) and never set elsewhere, so the optional optimizer gate of line
1332 is not taken.  With a nonempty SQL text, execution therefore reaches
line 1355, which reads the local `table_name`; that local is first assigned
at line 1452, so every such call raises UnboundLocalError before any of the
decision logic embedded in `analyzeCore` runs. -/
def analyze_sql_for_optimization (env : ReportEnv) (sql : String)
    (database table : String) (query : Option QueryInfo) :
    Except PyErr AdvisoryResult :=
  if sql = "" then .ok ⟨"", []⟩
  else
    -- line 1353: sql_lower; line 1354: alias extraction; line 1355 reads
    -- the unassigned local `table_name` -> UnboundLocalError.  The rest of
    -- the body (the logic of analyzeCore) is never reached.
    let localTableName : Option String := none
    match localTableName with
    | some _ => analyzeCore env sql database table query
    | none => .error (.unboundLocal "table_name")

end Report


/-! ### The claim\x27s own notion of a function-wrapped column

The claim about function disqualification quantifies over columns "wrapped
in one of the fixed scalar functions".  The detector below follows the
claim\x27s words (fixed function-name list, any number of arguments); it is
deliberately distinct from the source\x27s single-argument pattern
(`matchFuncCall22` and `checkFieldInFunction`), so that the two can be
compared. -/

/-- The claim\x27s function-name list. -/
def claimFunctionNames : List String :=
  ["lower", "upper", "substring", "concat", "length", "trim", "abs", "ceil",
   "floor", "round", "mod", "rand", "now", "curdate", "date", "year",
   "month", "day"]

def splitOnCommaAux : List Char → List Char → List (List Char)
  | [], cur => [cur.reverse]
  | c :: rest, cur =>
    if c = ',' then cur.reverse :: splitOnCommaAux rest []
    else splitOnCommaAux rest (c :: cur)

def trimSpaces (cs : List Char) : List Char :=
  ((cs.dropWhile isSpaceChar).reverse.dropWhile isSpaceChar).reverse

/-- Columns wrapped at the head of `s` by one of the claim\x27s functions:
a word-bounded function name, optional spaces, an argument list up to the
next closing parenthesis, arguments split on commas. -/
def claimWrappedColsAt (prev : Option Char) (s : List Char) : List String :=
  claimFunctionNames.flatMap (fun fn =>
    if atWordBoundary prev s && startsWithL fn.data s then
      match (s.drop fn.length).dropWhile isSpaceChar with
      | '(' :: inner =>
        let args := inner.takeWhile (· ≠ ')')
        (splitOnCommaAux args []).filterMap (fun a =>
          let t := trimSpaces a
          if t ≠ [] && t.all isWordChar then some (⟨t⟩ : String) else none)
      | _ => []
    else [])

def claimWrappedColsGo : Option Char → List Char → List String
  | _, [] => []
  | prev, c :: rest => claimWrappedColsAt prev (c :: rest) ++
      claimWrappedColsGo (some c) rest

/-- All columns of `sql` that the claim regards as function-wrapped. -/
def claimWrappedCols (sql : String) : List String :=
  claimWrappedColsGo none (lowerS sql).data


/-! ## Claim theorems -/

namespace DatabaseHelper

/-- The standby lookup opens at most one (metadata) connection -- though on
the raise paths of lines 100-102 it does not close it. -/
theorem getStandbyHostname_opens_le_one (env : HelperEnv) (master : String) :
    countOpens (getStandbyHostname env master).2 ≤ 1 := by
  unfold getStandbyHostname
  repeat' split
  all_goals simp [countOpens]

/-- C8 counterexample: called while `_active_connection` is set, the helper
does not return immediately without opening anything -- it first performs the
standby lookup, which opens (and closes) a metadata connection, so for a
moment two outbound connections are open at once.  Only then does it return
the error result. -/
theorem get_safe_connection_opens_while_active :
    (getSafeConnection ⟨some 0, 1⟩ sampleEnv (some "10.0.0.1")).2.2 =
      [DbEvent.connect "127.0.0.1" (some "t"), DbEvent.close] ∧
    (getSafeConnection ⟨some 0, 1⟩ sampleEnv (some "10.0.0.1")).1.status =
      "error" := by decide

/-- C8 amended: while `_active_connection` is set, `get_safe_connection`
returns the error result without creating or registering any new active
connection and leaves the helper state (including the active connection)
unchanged; the only connection activity is the standby lookup that the
source runs before the guard, which opens at most one transient metadata
connection (on the raise paths of lines 100-102 the source does not even
close that one). -/
theorem get_safe_connection_second_attempt_fails_fast
    (st : HelperState) (env : HelperEnv) (hostname : Option String) (c : Nat)
    (h : st.active = some c) :
    (getSafeConnection st env hostname).1.status = "error" ∧
    (getSafeConnection st env hostname).1.connection = none ∧
    (getSafeConnection st env hostname).2.1 = st ∧
    countOpens (getSafeConnection st env hostname).2.2 ≤ 1 := by
  have h1 : st.active.isSome = true := by simp [h]
  refine ⟨?_, ?_, ?_, ?_⟩
  · simp [getSafeConnection, h1]
  · simp [getSafeConnection, h1]
  · simp [getSafeConnection, h1]
  · simp only [getSafeConnection, h1, if_true]
    exact getStandbyHostname_opens_le_one _ _

/-- Witness for the amended C8 at a concrete state and environment. -/
theorem get_safe_connection_second_attempt_fails_fast_witness :
    (getSafeConnection ⟨some 3, 4⟩ sampleEnv none).1.status = "error" ∧
    (getSafeConnection ⟨some 3, 4⟩ sampleEnv none).1.connection = none ∧
    (getSafeConnection ⟨some 3, 4⟩ sampleEnv none).2.1 = ⟨some 3, 4⟩ ∧
    countOpens (getSafeConnection ⟨some 3, 4⟩ sampleEnv none).2.2 ≤ 1 :=
  get_safe_connection_second_attempt_fails_fast ⟨some 3, 4⟩ sampleEnv none 3 rfl

/-- C10: any query whose upper-cased text contains one of the write keywords
as a substring -- anywhere, including inside identifiers -- is rejected
before any connection is attempted: the result has status error and data
None, the helper state is unchanged, and the event trace is empty. -/
theorem execute_safe_query_rejects_dangerous
    (st : HelperState) (env : HelperEnv) (q : String)
    (hostname database : Option String)
    (h : containsDangerous q = true) :
    executeSafeQuery st env q hostname database =
      ({ status := "error", message := "查询包含危险操作，仅允许SELECT查询",
         data := none }, st, []) := by
  simp [executeSafeQuery, h]

/-- Witness for C10: a pure SELECT that merely touches a column named
`created_at` is rejected (its upper-casing contains CREATE), and the
metadata probe `SHOW INDEX` against a table named `update_log` is rejected
as well (its upper-casing contains UPDATE), so that table's metadata looks
unavailable. -/
theorem execute_safe_query_rejects_dangerous_witness :
    containsDangerous "SELECT created_at FROM login_records WHERE id = 1" = true ∧
    (executeSafeQuery ⟨none, 0⟩ sampleEnv
        "SELECT created_at FROM login_records WHERE id = 1" none none).1.status =
      "error" ∧
    containsDangerous "SHOW INDEX FROM `update_log`" = true ∧
    (executeSafeQuery ⟨none, 0⟩ sampleEnv "SHOW INDEX FROM `update_log`" none
        (some "db1")).1.data = none :=
  ⟨by decide,
   by rw [execute_safe_query_rejects_dangerous ⟨none, 0⟩ sampleEnv _ none none
       (by decide)],
   by decide,
   by rw [execute_safe_query_rejects_dangerous ⟨none, 0⟩ sampleEnv _ none
       (some "db1") (by decide)]⟩

end DatabaseHelper

/-- C5: for every SQL string, `extract_where_fields` returns at most 5 fields;
the deduplicated AND-branch fields (conditions before the first OR) come
first; when the AND branch already has 5 or more distinct fields exactly the
first 5 are returned and every returned field is an AND-branch field (no
OR-branch field appears); otherwise OR-branch fields fill the remainder up to
5, with a field literally named f, when present among the OR-branch fields,
placed ahead of the other OR-branch fields. -/
theorem extract_where_fields_cap_and_priority (sql : String) :
    (SQLAnalyzer.extract_where_fields sql).length ≤ 5 ∧
    (5 ≤ (SQLAnalyzer.uniqueAndOrFields sql).1.length →
      SQLAnalyzer.extract_where_fields sql =
        (SQLAnalyzer.uniqueAndOrFields sql).1.take 5 ∧
      ∀ x ∈ SQLAnalyzer.extract_where_fields sql,
        x ∈ (SQLAnalyzer.uniqueAndOrFields sql).1) ∧
    ((SQLAnalyzer.uniqueAndOrFields sql).1.length < 5 →
      SQLAnalyzer.extract_where_fields sql =
        (SQLAnalyzer.uniqueAndOrFields sql).1 ++
          (SQLAnalyzer.prioritizeF (SQLAnalyzer.uniqueAndOrFields sql).2).take
            (5 - (SQLAnalyzer.uniqueAndOrFields sql).1.length)) ∧
    ((SQLAnalyzer.uniqueAndOrFields sql).1.length < 5 →
      "f" ∈ (SQLAnalyzer.uniqueAndOrFields sql).2 →
      SQLAnalyzer.extract_where_fields sql =
        (SQLAnalyzer.uniqueAndOrFields sql).1 ++
          "f" :: (((SQLAnalyzer.uniqueAndOrFields sql).2.filter (· ≠ "f")).take
            (5 - (SQLAnalyzer.uniqueAndOrFields sql).1.length - 1))) := by
  classical
  set p := SQLAnalyzer.uniqueAndOrFields sql with hp
  by_cases h : 5 ≤ p.1.length
  · refine ⟨?_, fun _ => ⟨?_, ?_⟩, fun hlt => absurd h (by omega), fun hlt => absurd h (by omega)⟩
    · simp [SQLAnalyzer.extract_where_fields, ← hp, h, List.length_take]
    · simp [SQLAnalyzer.extract_where_fields, ← hp, h]
    · intro x hx
      simp only [SQLAnalyzer.extract_where_fields, ← hp, if_pos h] at hx
      exact List.take_subset 5 p.1 hx
  · have hlt : p.1.length < 5 := by omega
    have hR : SQLAnalyzer.extract_where_fields sql =
        p.1 ++ (SQLAnalyzer.prioritizeF p.2).take (5 - p.1.length) := by
      simp [SQLAnalyzer.extract_where_fields, ← hp, h]
    refine ⟨?_, fun h5 => absurd h5 h, fun _ => hR, fun _ hf => ?_⟩
    · rw [hR]
      simp only [List.length_append, List.length_take]
      omega
    · rw [hR]
      obtain ⟨k, hk⟩ : ∃ k, 5 - p.1.length = k + 1 := ⟨5 - p.1.length - 1, by omega⟩
      simp only [SQLAnalyzer.prioritizeF, if_pos hf, hk, List.take_succ_cons,
        Nat.add_sub_cancel]

/-- Witness for C5 at a concrete statement: the AND branch has two fields,
the OR fields fill up the cap with `f` promoted ahead of `b` and `c`. -/
theorem extract_where_fields_cap_and_priority_witness :
    SQLAnalyzer.extract_where_fields
        "select * from t where a=1 and b=2 or f=3 or c=4" =
      (SQLAnalyzer.uniqueAndOrFields
          "select * from t where a=1 and b=2 or f=3 or c=4").1 ++
        "f" :: (((SQLAnalyzer.uniqueAndOrFields
            "select * from t where a=1 and b=2 or f=3 or c=4").2.filter
              (· ≠ "f")).take
          (5 - (SQLAnalyzer.uniqueAndOrFields
            "select * from t where a=1 and b=2 or f=3 or c=4").1.length - 1)) :=
  (extract_where_fields_cap_and_priority
      "select * from t where a=1 and b=2 or f=3 or c=4").2.2.2
    (by decide) (by decide)

/-- C7 (code evaluated at the failing input): with two fields that score the
same on every name-category rule and occur equally often in the SQL text, the
sorter places the longer name first, because the weight formula adds
`len(field)` and sorts by descending weight; the claim (and the comment in
the source) say the shorter name should come first. -/
theorem sort_fields_by_priority_longer_name_first :
    SQLAnalyzer.sort_fields_by_priority ["aa", "bbb"] "where aa=1 and bbb=2" =
      ["bbb", "aa"] := by decide

namespace Report

/-! ### Shared lemmas about the recommendation chain -/

theorem juggle_mem (l : List String) (x : String)
    (hx : x ∈ jugglePrioritize l) : x ∈ l := by
  unfold jugglePrioritize at hx
  have step : ∀ (xs : List String) (acc : List String × Bool),
      ∀ y ∈ (xs.foldl
        (fun (acc : List String × Bool) x =>
          if x = "f" then (acc.1 ++ ["f"], true)
          else if x = "c" && !acc.2 then acc
          else (acc.1 ++ [x], acc.2)) acc).1, y ∈ acc.1 ∨ y ∈ xs := by
    intro xs
    induction xs with
    | nil => intro acc y hy; exact Or.inl hy
    | cons z zs ih =>
      intro acc y hy
      simp only [List.foldl_cons] at hy
      rcases ih _ y hy with h | h
      · split at h
        · rename_i hz
          rcases List.mem_append.1 h with h | h
          · exact Or.inl h
          · simp at h; subst h; right; simp [hz]
        · split at h
          · exact Or.inl h
          · rcases List.mem_append.1 h with h | h
            · exact Or.inl h
            · simp at h; subst h; right; simp
      · right; exact List.mem_cons_of_mem _ h
  have hx2 := List.mem_of_mem_take hx
  split at hx2
  · rename_i hcond
    rcases List.mem_append.1 hx2 with h | h
    · rcases step l ([], false) x h with h | h
      · simp at h
      · exact h
    · simp at h; subst h
      simp only [Bool.and_eq_true, decide_eq_true_eq] at hcond
      exact hcond.1.1
  · rcases step l ([], false) x hx2 with h | h
    · simp at h
    · exact h

theorem mem_mapcf (cf : List String) (x : String)
    (h : x ∈ cf.map (fun z => if z = "c" then "f" else z)) :
    x ∈ cf ∨ x = "f" := by
  rcases List.mem_map.1 h with ⟨z, hz, hzx⟩
  by_cases hzc : z = "c"
  · rw [if_pos hzc] at hzx
    exact Or.inr hzx.symm
  · rw [if_neg hzc] at hzx
    subst hzx
    exact Or.inl hz

theorem mem_take4f (cf : List String) (x : String)
    (h : x ∈ cf.take 4 ++ ["f"]) : x ∈ cf ∨ x = "f" := by
  rcases List.mem_append.1 h with h | h
  · exact Or.inl (List.mem_of_mem_take h)
  · simp at h
    exact Or.inr h

theorem funcFieldBranch_cols (tn : String) (ex wf fu : List String)
    (c : Contribution) (hc : funcFieldBranch tn ex wf fu = .ok c)
    (ix : CreateIx) (hix : ix ∈ c.2.2) (x : String) (hx : x ∈ ix.cols) :
    x ∉ fu := by
  have hnf : ∀ y, y ∈ wf.filter (fun z => !decide (z ∈ fu)) → y ∉ fu := by
    intro y hy
    simp only [List.mem_filter, Bool.not_eq_true', decide_eq_false_iff_not] at hy
    exact hy.2
  unfold funcFieldBranch at hc
  simp only [] at hc
  by_cases h15 : 1 < (wf.filter (fun z => decide (z ∉ fu))).length
  · simp only [if_pos h15] at hc
    repeat' split at hc
    all_goals injection hc with hc
    all_goals subst hc
    all_goals try simp [noContribution] at hix
    all_goals try omega
    all_goals subst hix
    all_goals simp only [] at hx
    all_goals have hm := juggle_mem _ _ hx
    all_goals
      have hcf : x ∈ wf.filter (fun z => !decide (z ∈ fu)) ∨ x = "f" := by
        first
        | exact (mem_mapcf _ _ (List.mem_of_mem_take hm)).imp_left id
        | exact (mem_take4f _ _ hm).imp_left List.mem_of_mem_take
        | exact Or.inl (List.mem_of_mem_take hm)
    all_goals rcases hcf with h | h
    all_goals try exact hnf x h
    all_goals subst h
    all_goals
      exact hnf _ (by
        have h3 : "f" ∈ List.filter (fun z => decide (z ∉ fu)) wf := by
          assumption
        simpa using h3)
  · simp only [if_neg h15] at hc
    repeat' split at hc
    all_goals try exact Except.noConfusion hc
    all_goals injection hc with hc
    all_goals subst hc
    all_goals try simp [noContribution] at hix
    all_goals rename_i f tail heq hlow
    all_goals subst hix
    all_goals simp only [List.mem_singleton] at hx
    all_goals subst hx
    all_goals
      exact hnf _ (by
        have h3 : x ∈ List.filter (fun z => decide (z ∉ fu)) wf := by
          rw [heq]; exact List.mem_cons_self _ _
        simpa using h3)

theorem joinTableRecs_funcUsed (tfu : List (String × Usage)) (pl : String)
    (fu : List String) (h : fu ≠ []) : joinTableRecs tfu pl fu = noContribution := by
  unfold joinTableRecs
  simp [h]

theorem orderSection_funcUsed (tn : String) (wf obf ex fu : List String)
    (h : fu ≠ []) : orderSection tn wf obf ex fu = noContribution := by
  unfold orderSection
  simp [h]

theorem coveringSection_funcUsed (tn : String) (wf jf obf ex fu : List String)
    (h : fu ≠ []) : coveringSection tn wf jf obf ex fu = noContribution := by
  unfold coveringSection
  simp [h]

theorem sqlStructureSuggestions_ne (sl : String) (fu ex : List String)
    (h : fu ≠ []) : sqlStructureSuggestions sl fu ex ≠ [] := by
  obtain ⟨a, l, rfl⟩ := List.exists_cons_of_ne_nil h
  simp [sqlStructureSuggestions]







set_option maxHeartbeats 4000000 in
/-- C2 (amended): any column that the source itself classifies as
function-wrapped (it lands in `function_used_fields` at lines 1795-1826)
never appears among the columns of any recorded `CREATE INDEX` statement of
the advisory: with function-wrapped fields present, the recommendation
chain only indexes fields outside `function_used_fields` (lines 1874-1941),
the JOIN/ORDER BY/covering sections are disabled, and the all-indexed
composite of lines 2273-2286 is unreachable because the SQL-structure
suggestion list is nonempty. -/
theorem function_wrapped_cols_never_bare
    (env : ReportEnv) (sql database table : String) (query : Option QueryInfo)
    (tn : String) (b : Bool) (col : String) (r : AdvisoryResult)
    (hTN : resolveTableName sql table query = tn)
    (hTE : (resolveDatabase env database tn).2 = true)
    (hIdx : checkIndexesExistR env query (resolveDatabase env database tn).1 tn
        (extractStage sql tn (extractTableAliases sql)).whereFields
        (extractStage sql tn (extractTableAliases sql)).joinFields
        (extractStage sql tn (extractTableAliases sql)).orderByFields = .ok b)
    (hcol : col ∈ (classifyFields sql
        (extractStage sql tn (extractTableAliases sql)).whereFields
        (existingIndexedFields env query
          (resolveDatabase env database tn).1 tn)).1)
    (hr : analyzeCore env sql database table query = .ok r) :
    ∀ ix ∈ r.createIxs, col ∉ ix.cols := by
  intro ix hix hcx
  have hfu : (classifyFields sql
      (extractStage sql tn (extractTableAliases sql)).whereFields
      (existingIndexedFields env query
        (resolveDatabase env database tn).1 tn)).1 ≠ [] :=
    List.ne_nil_of_mem hcol
  by_cases hwf : (extractStage sql tn (extractTableAliases sql)).whereFields = []
  · rw [hwf] at hcol
    simp [classifyFields] at hcol
  · have hso := decide_eq_false (sqlStructureSuggestions_ne (lowerS sql) _
      (existingIndexedFields env query
        (resolveDatabase env database tn).1 tn) hfu)
    simp only [analyzeCore, hTN, hTE, hIdx] at hr
    simp only [bind, Except.bind, pure, Except.pure, Bool.not_true,
      Bool.false_and, reduceIte] at hr
    rw [if_pos hwf] at hr
    simp only [recommendationChain] at hr
    rw [if_pos hfu] at hr
    cases hFB : funcFieldBranch tn
        (existingIndexedFields env query
          (resolveDatabase env database tn).1 tn)
        (extractStage sql tn (extractTableAliases sql)).whereFields
        (classifyFields sql
          (extractStage sql tn (extractTableAliases sql)).whereFields
          (existingIndexedFields env query
            (resolveDatabase env database tn).1 tn)).1 with
    | error e =>
      rw [hFB] at hr
      simp only [] at hr
      repeat' split at hr
      all_goals try exact Except.noConfusion hr
      all_goals injection hr with hr
      all_goals subst hr
      all_goals simp at hix
    | ok c =>
      rw [hFB] at hr
      simp only [] at hr
      rw [joinTableRecs_funcUsed _ _ _ hfu,
        orderSection_funcUsed _ _ _ _ _ hfu,
        coveringSection_funcUsed _ _ _ _ _ _ hfu] at hr
      simp only [hso, Bool.and_false, Bool.false_and, Bool.and_true,
        Bool.true_and, if_false, catContrib, noContribution,
        List.append_nil, List.nil_append] at hr
      repeat' split at hr
      all_goals injection hr with hr
      all_goals subst hr
      all_goals try simp at hix
      all_goals
        exact funcFieldBranch_cols _ _ _ _ _ hFB ix
          (by simpa using hix) col hcx hcol

set_option maxRecDepth 8000 in
/-- Witness for the amended C2: `lower(name)` puts `name` into
`function_used_fields`, the plain field `id` gets `idx_id`, and `name`
appears in no recorded index. -/
theorem function_wrapped_cols_never_bare_witness :
    (match analyzeCore
        ({ cte1511 := true, cte1521 := true, cte1605 := true, cte408 := true,
           showIndex434 := some [], showIndex1743 := none } : ReportEnv)
        "select * from t where lower(name) = 1 and id > 5" "db1" "t" none with
     | .ok r => ∀ ix ∈ r.createIxs, "name" ∉ ix.cols
     | .error _ => False) := by
  split
  · rename_i r heq
    exact function_wrapped_cols_never_bare
      ({ cte1511 := true, cte1521 := true, cte1605 := true, cte408 := true,
         showIndex434 := some [], showIndex1743 := none } : ReportEnv)
      "select * from t where lower(name) = 1 and id > 5" "db1" "t" none "t"
      false "name" r (by decide) (by decide) rfl (by decide) heq
  · rename_i e heq
    have hok : (analyzeCore
        ({ cte1511 := true, cte1521 := true, cte1605 := true, cte408 := true,
           showIndex434 := some [], showIndex1743 := none } : ReportEnv)
        "select * from t where lower(name) = 1 and id > 5" "db1" "t"
        none).toOption.isSome = true := by decide
    rw [heq] at hok
    simp [Except.toOption] at hok


theorem mem_insDesc_self (k : Nat) (l : List Nat) :
    k ∈ SQLAnalyzer.insDesc k l := by
  induction l with
  | nil => simp [SQLAnalyzer.insDesc]
  | cons j js ih =>
    unfold SQLAnalyzer.insDesc
    split
    · exact List.mem_cons_self _ _
    · exact List.mem_cons_of_mem _ ih

theorem mem_insDesc_of_mem (a k : Nat) (l : List Nat) (h : a ∈ l) :
    a ∈ SQLAnalyzer.insDesc k l := by
  induction l with
  | nil => simp at h
  | cons j js ih =>
    unfold SQLAnalyzer.insDesc
    rcases List.mem_cons.1 h with h | h
    · subst h
      split
      · exact List.mem_cons_of_mem _ (List.mem_cons_self _ _)
      · exact List.mem_cons_self _ _
    · split
      · exact List.mem_cons_of_mem _ (List.mem_cons_of_mem _ h)
      · exact List.mem_cons_of_mem _ (ih h)

theorem mem_foldr_insDesc (a : Nat) (l : List Nat) (h : a ∈ l) :
    a ∈ l.foldr SQLAnalyzer.insDesc [] := by
  induction l with
  | nil => simp at h
  | cons k ks ih =>
    simp only [List.foldr_cons]
    rcases List.mem_cons.1 h with h | h
    · subst h
      exact mem_insDesc_self _ _
    · exact mem_insDesc_of_mem _ _ _ (ih h)

theorem mem_dedupNatAux (a : Nat) (l seen : List Nat) (h : a ∈ l)
    (hs : a ∉ seen) : a ∈ SQLAnalyzer.dedupNatAux l seen := by
  induction l generalizing seen with
  | nil => simp at h
  | cons k ks ih =>
    unfold SQLAnalyzer.dedupNatAux
    rcases List.mem_cons.1 h with h | h
    · subst h
      split
      · rename_i hk
        exact absurd hk hs
      · exact List.mem_cons_self _ _
    · split
      · exact ih seen h hs
      · by_cases hak : a = k
        · subst hak
          exact List.mem_cons_self _ _
        · refine List.mem_cons_of_mem _ (ih _ h ?_)
          simp [hak, hs]

theorem mem_sort_fields (fields : List String) (s : String) (x : String)
    (h : x ∈ SQLAnalyzer.sort_fields_by_priority fields s) : x ∈ fields := by
  unfold SQLAnalyzer.sort_fields_by_priority at h
  split at h
  · simp at h
  · unfold SQLAnalyzer.pySortedDesc at h
    rcases List.mem_flatMap.1 h with ⟨k, _, hx⟩
    exact (List.mem_filter.1 hx).1

theorem sort_fields_ne_nil (fields : List String) (s : String)
    (h : fields ≠ []) : SQLAnalyzer.sort_fields_by_priority fields s ≠ [] := by
  obtain ⟨x0, rest, rfl⟩ := List.exists_cons_of_ne_nil h
  unfold SQLAnalyzer.sort_fields_by_priority
  rw [if_neg (by simp)]
  apply List.ne_nil_of_mem (a := x0)
  unfold SQLAnalyzer.pySortedDesc
  refine List.mem_flatMap.2 ⟨SQLAnalyzer.fieldWeight s x0, ?_, ?_⟩
  · apply mem_foldr_insDesc
    apply mem_dedupNatAux
    · simp
    · simp
  · simp

theorem containsL_pat_nil (b : List Char) : containsL b [] = true := by
  cases b <;> simp [containsL, startsWithL]

theorem startsWithL_append (pat s t : List Char)
    (h : startsWithL pat s = true) : startsWithL pat (s ++ t) = true := by
  induction pat generalizing s with
  | nil => simp [startsWithL]
  | cons p ps ih =>
    rcases s with _ | ⟨c, cs⟩
    · simp [startsWithL] at h
    · unfold startsWithL at h ⊢
      simp only [Bool.and_eq_true] at h
      simp only [List.cons_append, h.1, Bool.true_and]
      exact ih cs h.2

theorem containsL_append_r (a b pat : List Char)
    (h : containsL b pat = true) : containsL (a ++ b) pat = true := by
  induction a with
  | nil => exact h
  | cons c cs ih =>
    simp only [List.cons_append, containsL, Bool.or_eq_true]
    exact Or.inr ih

theorem containsL_append_l (a b pat : List Char)
    (h : containsL a pat = true) : containsL (a ++ b) pat = true := by
  induction a with
  | nil =>
    unfold containsL at h
    simp only [List.isEmpty_iff] at h
    subst h
    exact containsL_pat_nil b
  | cons c cs ih =>
    simp only [containsL, Bool.or_eq_true] at h ⊢
    rcases h with h | h
    · exact Or.inl (startsWithL_append _ _ _ h)
    · exact Or.inr (ih h)

theorem containsS_append_r (a b pat : String)
    (h : containsS b pat = true) :
    containsS (a ++ b) pat = true := by
  unfold containsS at h ⊢
  rw [String.data_append]
  exact containsL_append_r _ _ _ h

theorem containsS_append_l (a b pat : String)
    (h : containsS a pat = true) :
    containsS (a ++ b) pat = true := by
  unfold containsS at h ⊢
  rw [String.data_append]
  exact containsL_append_l _ _ _ h

theorem joinCnSemi_singleton (x : String) : joinCnSemi [x] = x := rfl

open SQLAnalyzer in
set_option maxHeartbeats 4000000 in
/-- C6: the sufficiency check of `report_generator_core.check_indexes_exist`
(lines 777-788) returns False whenever the query has more than one WHERE
field -- never "fully covered" -- and for a multi-field query whose WHERE
fields are all individually indexed (no functions, no JOIN or ORDER BY,
metadata retrievable, no SQL-structure advice), the advisory diagnosis still
carries "建议创建复合索引", differs from every already-optimal verdict, and
records the composite `CREATE INDEX` over the first five WHERE fields
(the assembly of lines 2273-2291). -/
theorem multi_field_all_indexed_still_composite
    (env : ReportEnv) (sql database table : String) (query : Option QueryInfo)
    (tn : String) (wf : List String) (r : AdvisoryResult)
    (hTN : resolveTableName sql table query = tn)
    (hTE : (resolveDatabase env database tn).2 = true)
    (hWF : (extractStage sql tn (extractTableAliases sql)).whereFields = wf)
    (hJF : (extractStage sql tn (extractTableAliases sql)).joinFields = [])
    (hOB : (extractStage sql tn (extractTableAliases sql)).orderByFields = [])
    (hJD : (extractStage sql tn (extractTableAliases sql)).joinDetails = [])
    (hLen : 1 < wf.length)
    (hAll : ∀ f ∈ wf, lowerS f ∈ existingIndexedFields env query
        (resolveDatabase env database tn).1 tn)
    (hFn : hasFunctionFields sql wf = false)
    (hIdx : checkIndexesExistR env query (resolveDatabase env database tn).1 tn
        wf [] [] = .ok false)
    (hCls : classifyFields sql wf (existingIndexedFields env query
        (resolveDatabase env database tn).1 tn) = ([], [], wf))
    (hGet : canGetIndexInfo env query
        (resolveDatabase env database tn).1 tn = true)
    (hTfuR : joinTableRecs (extractStage sql tn (extractTableAliases sql)).tfu
        (lowerS tn) [] = noContribution)
    (hSqlOpt : sqlStructureSuggestions (lowerS sql) []
        (existingIndexedFields env query (resolveDatabase env database tn).1 tn)
        = []) 
    (hr : analyzeCore env sql database table query = .ok r) :
    (∀ (te : Bool) (si : Option (List String)) (q : Option QueryInfo)
        (db tn2 : String) (wf2 jf2 obf2 : List String), 1 < wf2.length →
      ReportCore.check_indexes_exist te si q db tn2 wf2 jf2 obf2 = false) ∧
    containsS r.text "建议创建复合索引" = true ∧
    (∀ g, r.text ≠ optimalText g) ∧
    (⟨"idx_" ++ joinUnderscore (wf.take 5) ++ "_composite", tn, wf.take 5⟩ :
      CreateIx) ∈ r.createIxs := by
  have hwf_ne : wf ≠ [] := by
    intro h
    rw [h] at hLen
    simp at hLen
  have hlen1 : ¬(wf.length = 1) := by omega
  have hex_ne : existingIndexedFields env query
      (resolveDatabase env database tn).1 tn ≠ [] := by
    obtain ⟨f0, rest, rfl⟩ := List.exists_cons_of_ne_nil hwf_ne
    exact List.ne_nil_of_mem (hAll f0 (List.mem_cons_self _ _))
  have hall_b : wf.all (fun f => decide (lowerS f ∈ existingIndexedFields env
      query (resolveDatabase env database tn).1 tn)) = true := by
    rw [List.all_eq_true]
    intro f hf
    exact decide_eq_true (hAll f hf)
  have hCCI : checkCompositeIndexExists
      (existingIndexedFields env query (resolveDatabase env database tn).1 tn)
      ((sort_fields_by_priority wf (lowerS sql)).take 5) = true := by
    unfold checkCompositeIndexExists
    rw [if_neg ?_]
    · rw [List.all_eq_true]
      intro f hf
      exact decide_eq_true
        (hAll f (mem_sort_fields _ _ _ (List.mem_of_mem_take hf)))
    · intro h
      rw [List.take_eq_nil_iff] at h
      rcases h with h | h
      · simp at h
      · exact sort_fields_ne_nil wf (lowerS sql) hwf_ne h
  simp only [analyzeCore, hTN, hTE, hWF, hJF, hOB, hJD, hFn, hIdx, hGet,
    hCls] at hr
  simp only [bind, Except.bind, pure, Except.pure, recommendationChain,
    joinUpdates, hTfuR, hSqlOpt, hCCI, hwf_ne, hlen1, hex_ne, hall_b, hLen,
    catContrib, noContribution, joinNN, Bool.not_true, Bool.not_false,
    Bool.false_and, Bool.true_and, Bool.and_false, Bool.and_true,
    Bool.or_false, Bool.false_or, ne_eq, not_false_iff, ite_true, ite_false,
    decide_True, decide_False, reduceIte, List.append_nil,
    List.nil_append] at hr
  simp only [Bool.false_eq_true, not_true, ite_false, ite_true,
    if_false, if_true, decide_False, decide_True, reduceIte,
    orderSection, coveringSection, hTfuR, noContribution, catContrib,
    Bool.or_false, Bool.false_or, Bool.and_true, Bool.true_and,
    Bool.and_false, Bool.false_and, not_false_iff, ne_eq, List.cons_ne_nil,
    List.append_nil, List.nil_append, joinNN] at hr
  try simp only [Bool.false_eq_true, not_true, ite_false, ite_true,
    if_false, if_true, decide_False, decide_True, reduceIte,
    orderSection, coveringSection, hTfuR, noContribution, catContrib,
    Bool.or_false, Bool.false_or, Bool.and_true, Bool.true_and,
    Bool.and_false, Bool.false_and, not_false_iff, ne_eq, List.cons_ne_nil,
    List.append_nil, List.nil_append, joinNN] at hr
  have h01 : ¬((0 : Nat) = 1) := by decide
  have h10 : ¬((1 : Nat) < 0) := by decide
  simp only [h01, h10, coreIssuesLine, hWF, hJD, hOB, hJF, hwf_ne, hLen, hlen1, ne_eq,
    not_false_iff, ite_true, ite_false, decide_True, decide_False, reduceIte,
    Bool.false_eq_true, not_true, Bool.and_true, Bool.true_and,
    Bool.and_false, Bool.false_and, List.cons_ne_nil, List.append_nil,
    List.nil_append, List.length_nil, joinCnSemi_singleton] at hr
  rw [Except.ok.injEq] at hr
  have hts : ∀ s : String, toString s = s := fun _ => rfl
  simp only [hts] at hr
  clear hAll hall_b hCCI hIdx hCls hGet hTfuR hSqlOpt hFn hTN hTE hWF hJF
    hOB hJD hex_ne
  have hA : (∀ (te : Bool) (si : Option (List String))
      (q : Option QueryInfo) (db tn2 : String) (wf2 jf2 obf2 : List String),
      1 < wf2.length →
      ReportCore.check_indexes_exist te si q db tn2 wf2 jf2 obf2 = false) := by
    intro te si q db tn2 wf2 jf2 obf2 hl
    rcases q with _ | qq <;>
    · unfold ReportCore.check_indexes_exist
      simp only []
      repeat' split
      all_goals first | rfl | omega
  generalize hg1 : joinComma wf = fsv at hr
  generalize hg2 : joinComma (List.take 5 wf) = fsv2 at hr
  generalize hg3 : joinUnderscore (List.take 5 wf) = juv at hr ⊢
  generalize hg4 : computeImprovement wf [] [] [] [] [] [] []
    = impv at hr
  generalize hg5 : effectText impv.1 impv.2 query = effv at hr
  generalize hg6 : List.take 5 wf = wf5 at hr ⊢
  have htext := congrArg AdvisoryResult.text hr
  have hledger := congrArg AdvisoryResult.createIxs hr
  simp only [] at htext hledger
  clear hr
  refine ⟨hA, ?_, ?_, ?_⟩
  · rw [← htext]
    apply containsS_append_l
    apply containsS_append_l
    apply containsS_append_l
    apply containsS_append_r
    apply containsS_append_r
    decide
  · intro g h
    rw [← htext] at h
    have h8 := congrArg (fun s => s.data.take 8) h
    simp only [optimalText, hts, String.data_append, List.append_assoc] at h8
    rw [List.take_append_of_le_length (by simp),
      List.take_append_of_le_length (by decide)] at h8
    exact absurd h8 (by decide)
  · rw [← hledger]
    simp


set_option maxRecDepth 8000 in
/-- Witness for C6: both WHERE fields of a two-predicate query are already
individually indexed, yet the advisory suggests (and records) the composite
index over them. -/
theorem multi_field_all_indexed_still_composite_witness :
    (match analyzeCore
        ({ cte1511 := true, cte1521 := true, cte1605 := true, cte408 := true,
           showIndex434 := some ["user_id", "status"],
           showIndex1743 := some ["user_id", "status"] } : ReportEnv)
        "select user_id from orders where user_id = 5 and status = 1"
        "db1" "orders" none with
     | .ok r => containsS r.text "建议创建复合索引" = true ∧
        (⟨"idx_user_id_status_composite", "orders", ["user_id", "status"]⟩ :
          CreateIx) ∈ r.createIxs
     | .error _ => False) := by
  split
  · rename_i r heq
    have H := multi_field_all_indexed_still_composite
      ({ cte1511 := true, cte1521 := true, cte1605 := true, cte408 := true,
         showIndex434 := some ["user_id", "status"],
         showIndex1743 := some ["user_id", "status"] } : ReportEnv)
      "select user_id from orders where user_id = 5 and status = 1"
      "db1" "orders" none "orders" ["user_id", "status"] r
      (by decide) (by decide) (by decide) (by decide) (by decide) (by decide)
      (by decide) (by decide) (by decide) rfl (by decide) (by decide) rfl
      (by decide) heq
    exact ⟨H.2.1, H.2.2.2⟩
  · rename_i e heq
    have hok : (analyzeCore
        ({ cte1511 := true, cte1521 := true, cte1605 := true, cte408 := true,
           showIndex434 := some ["user_id", "status"],
           showIndex1743 := some ["user_id", "status"] } : ReportEnv)
        "select user_id from orders where user_id = 5 and status = 1"
        "db1" "orders" none).toOption.isSome = true := by decide
    rw [heq] at hok
    simp [Except.toOption] at hok

/-- C1 (code evaluated at the failing input): on a nonempty SQL statement,
`_analyze_sql_for_optimization` raises UnboundLocalError -- line 1355 reads
the local `table_name`, which is first assigned at line 1452, and the
intelligent-optimizer gate of line 1332 is off by default -- so no diagnosis
string is produced at all, contradicting the claim that extraction or
analysis failure degrades to a low-confidence diagnosis rather than a
throw. -/
theorem analyze_sql_for_optimization_raises :
    analyze_sql_for_optimization {} "SELECT * FROM orders WHERE user_id = 5"
      "db1" "orders" none = .error (.unboundLocal "table_name") := rfl

/-- C9: for a single-predicate query whose one WHERE field is already
indexed (the sufficiency check confirms it and index metadata is
retrievable), a row count above 4,000,000 produces the historical-data
archival diagnosis, and an available row count of at most 4,000,000 produces
the already-optimal diagnosis. -/
theorem single_predicate_row_count_branch
    (env : ReportEnv) (sql database table : String) (query : Option QueryInfo)
    (tn f : String) (n : Int)
    (hTN : resolveTableName sql table query = tn)
    (hTE : (resolveDatabase env database tn).2 = true)
    (hWF : (extractStage sql tn (extractTableAliases sql)).whereFields = [f])
    (hFn : hasFunctionFields sql [f] = false)
    (hIdx : checkIndexesExistR env query (resolveDatabase env database tn).1 tn
      [f] (extractStage sql tn (extractTableAliases sql)).joinFields
      (extractStage sql tn (extractTableAliases sql)).orderByFields = .ok true)
    (hGet : canGetIndexInfo env query (resolveDatabase env database tn).1 tn = true)
    (hRC : rowCountWithFallback env.rowCount1654 query = some n) :
    (4000000 < n →
      analyzeCore env sql database table query = .ok ⟨archivalText f tn n, []⟩) ∧
    (n ≤ 4000000 →
      analyzeCore env sql database table query = .ok ⟨optimalText f, []⟩) := by
  constructor
  · intro hn
    simp only [analyzeCore, hTN, hTE, hWF, hFn, hIdx, hGet, hRC]
    simp [hn, bind, Except.bind, pure, Except.pure]
  · intro hn
    simp only [analyzeCore, hTN, hTE, hWF, hFn, hIdx, hGet, hRC]
    simp [bind, Except.bind, pure, Except.pure, show ¬(4000000 < n) from by omega]

/-- Witness for C9: with the one WHERE field `user_id` already indexed and a
row count of 5,000,000, the advisory recommends historical-data archival. -/
theorem single_predicate_row_count_branch_witness :
    analyzeCore
        { cte1511 := true, cte1521 := true, cte1605 := true, cte408 := true,
          showIndex434 := some ["user_id"], showIndex1743 := some ["user_id"],
          rowCount1654 := some 5000000 }
        "select * from orders where user_id = 5" "db1" "orders" none =
      .ok ⟨archivalText "user_id" "orders" 5000000, []⟩ :=
  (single_predicate_row_count_branch
      { cte1511 := true, cte1521 := true, cte1605 := true, cte408 := true,
        showIndex434 := some ["user_id"], showIndex1743 := some ["user_id"],
        rowCount1654 := some 5000000 }
      "select * from orders where user_id = 5" "db1" "orders" none
      "orders" "user_id" 5000000 (by decide) (by decide) (by decide) (by decide)
      rfl (by decide) (by decide)).1 (by decide)

set_option maxRecDepth 8000 in
/-- C3 (code evaluated at the failing input): with no live index metadata
and no captured snapshot (both SHOW INDEX sites fail, no table_structure,
line 1605 resolution off), `can_get_index_info` is false, yet because the
query uses a function on its WHERE field the analysis falls through to the
main diagnosis path (lines 1612-1678 all require `not has_function_fields`),
so the advisory carries neither the marker text `无法获取表索引信息` nor any
manual-verification request -- the unknown-metadata state is treated exactly
like confirmed index absence. -/
theorem function_fields_skip_uncertainty_marker :
    canGetIndexInfo
        ({ cte1511 := true, cte1521 := true, cte1605 := false, cte408 := true,
           showIndex434 := none, showIndex1743 := none } : ReportEnv)
        none "db1" "t" = false ∧
    (match analyzeCore
        ({ cte1511 := true, cte1521 := true, cte1605 := false, cte408 := true,
           showIndex434 := none, showIndex1743 := none } : ReportEnv)
        "select * from t where lower(name) = 1" "db1" "t" none with
     | .ok r => (containsS r.text "无法获取表索引信息", containsS r.text "手动")
     | .error _ => (true, true)) = (false, false) := ⟨by decide, by decide⟩

set_option maxRecDepth 8000 in
/-- C2 (code evaluated at the failing input): in
`select * from t where mod(id,2)=0 and id>5` the column `id` is wrapped in
the fixed function `mod` (two arguments), but the source\x27s function
patterns only accept single-argument calls (line 1800 and line 375), so `id`
is classified as a plain unindexed field and the advisory records
`CREATE INDEX idx_id ON t(id)` -- listing the wrapped column bare. -/
theorem mod_wrapped_column_gets_bare_index :
    "id" ∈ claimWrappedCols "select * from t where mod(id,2)=0 and id>5" ∧
    (match analyzeCore
        ({ cte1511 := true, cte1521 := true, cte1605 := true, cte408 := true,
           showIndex434 := some [], showIndex1743 := none } : ReportEnv)
        "select * from t where mod(id,2)=0 and id>5" "db1" "t" none with
     | .ok r => r.createIxs.any (fun ix => "id" ∈ ix.cols)
     | .error _ => false) = true := ⟨by decide, by decide⟩

/-- C4 (code evaluated at the failing input): with function-wrapped fields
present (base 75, not 60), three WHERE fields, JOIN and ORDER BY involvement
and a nonempty SQL-structure suggestion list, the improvement range computed
by lines 2296-2339 is `(140, 95)`: the minimum exceeds 95 and exceeds the
maximum, so the claimed clamp of both ends into `[50, 95]` with
`min_pct <= max_pct` does not hold (there is also no execution-count term in
this formula at all). -/
theorem improvement_breaks_claimed_clamp :
    computeImprovement ["a", "b", "c"] ["j"] ["o"] ["fn"] ["s"] [] [] [] =
      (140, 95) ∧
    ¬((computeImprovement ["a", "b", "c"] ["j"] ["o"] ["fn"] ["s"] [] [] []).1 ≤ 95 ∧
      (computeImprovement ["a", "b", "c"] ["j"] ["o"] ["fn"] ["s"] [] [] []).1 ≤
        (computeImprovement ["a", "b", "c"] ["j"] ["o"] ["fn"] ["s"] [] [] []).2) := by
  decide

set_option maxHeartbeats 1600000 in
/-- C4 (amended): the bounds the formula of lines 2296-2339 really
guarantees: the minimum is at least 50 (never clamped from above), the
maximum lies within `[75, 95]`, and whenever the minimum does not exceed 95
the range is well-ordered (`min_pct <= max_pct`). -/
theorem improvement_range_actual_bounds (w j o fu so ta co ar : List String) :
    50 ≤ (computeImprovement w j o fu so ta co ar).1 ∧
    75 ≤ (computeImprovement w j o fu so ta co ar).2 ∧
    (computeImprovement w j o fu so ta co ar).2 ≤ 95 ∧
    ((computeImprovement w j o fu so ta co ar).1 ≤ 95 →
      (computeImprovement w j o fu so ta co ar).1 ≤
        (computeImprovement w j o fu so ta co ar).2) := by
  unfold computeImprovement
  dsimp only
  split_ifs <;> omega

/-- C3 (amended): when the WHERE fields involve no function call, the table
resolves as existing, and index metadata is retrievable neither live nor
from a snapshot (`can_get_index_info` false), the advisory is exactly one of
the two fixed uncertainty texts (lines 1613-1621 / 1666-1678) with an empty
recommendation ledger; both texts carry the marker `无法获取表索引信息`,
request manual verification (`手动`), and are distinct from the
already-optimal verdict. -/
theorem metadata_unknown_marks_uncertainty
    (env : ReportEnv) (sql database table : String) (query : Option QueryInfo)
    (tn : String) (b : Bool)
    (hTN : resolveTableName sql table query = tn)
    (hTE : (resolveDatabase env database tn).2 = true)
    (hFn : hasFunctionFields sql
      (extractStage sql tn (extractTableAliases sql)).whereFields = false)
    (hIdx : checkIndexesExistR env query (resolveDatabase env database tn).1 tn
      (extractStage sql tn (extractTableAliases sql)).whereFields
      (extractStage sql tn (extractTableAliases sql)).joinFields
      (extractStage sql tn (extractTableAliases sql)).orderByFields = .ok b)
    (hGet : canGetIndexInfo env query (resolveDatabase env database tn).1 tn
      = false) :
    analyzeCore env sql database table query =
      .ok ⟨if b then uncertainTextA else uncertainTextB, []⟩ ∧
    (containsS uncertainTextA "无法获取表索引信息" = true ∧
     containsS uncertainTextB "无法获取表索引信息" = true) ∧
    (containsS uncertainTextA "手动" = true ∧
     containsS uncertainTextB "手动" = true) ∧
    (containsS uncertainTextA "查询已处于最优状态" = false ∧
     containsS uncertainTextB "查询已处于最优状态" = false) := by
  refine ⟨?_, by decide, by decide, by decide⟩
  cases b
  · simp only [analyzeCore, hTN, hTE, hFn, hIdx, hGet]
    simp [bind, Except.bind, pure, Except.pure]
  · simp only [analyzeCore, hTN, hTE, hFn, hIdx, hGet]
    simp [bind, Except.bind, pure, Except.pure]

/-- Witness for the amended C3: a plain single-field query with no
retrievable metadata yields the second uncertainty text verbatim. -/
theorem metadata_unknown_marks_uncertainty_witness :
    analyzeCore
        ({ cte1511 := true, cte1521 := true, cte1605 := false, cte408 := true,
           showIndex434 := none, showIndex1743 := none } : ReportEnv)
        "select * from t where id = 5" "db1" "t" none =
      .ok ⟨uncertainTextB, []⟩ :=
  (metadata_unknown_marks_uncertainty
      ({ cte1511 := true, cte1521 := true, cte1605 := false, cte408 := true,
         showIndex434 := none, showIndex1743 := none } : ReportEnv)
      "select * from t where id = 5" "db1" "t" none "t" false
      (by decide) (by decide) (by decide) rfl (by decide)).1

end Report

end DbOpt
